import Mathlib

/-!
Verification development for the LMXML well-data XML generation service.

The Python source is shallowly embedded: payload rows become structures over
`ℚ` (payload numbers), XML elements become a tree of tag/attribute-list/children,
Python dicts become association lists preserving insertion order, and Python's
stable `list.sort(..., reverse=True)` is modelled by `List.insertionSort` with
the reversed comparison (the unique stable descending sort).  Randomness
(`random.choice` draws in `generate_id` / `generate_random_id`) is modelled by
an explicit supply of candidate strings.
-/

namespace LMXML

/-! ### services/xml/utils.py -/
/-- `calculate_emw` from `services/xml/utils.py`: Equivalent Mud Weight from
pressure and depth; returns `0.0` for non-positive depth. -/
def calculate_emw (pressure depth : ℚ) : ℚ :=
  if depth ≤ 0 then 0 else pressure / (0.052 * depth)

/-- The inline EMW fallback of `update_formation_inputs`
(`services/xml_methods/formation.py`, pore/frac branches): a row that supplies
`emw` uses it verbatim, otherwise `pressure / (0.052 * depth)` when
`depth > 0`, else `0`. -/
def poreEmwValue (emw : Option ℚ) (pressure depth : ℚ) : ℚ :=
  match emw with
  | some e => e
  | none => if 0 < depth then pressure / (0.052 * depth) else 0

/-! ### Python's stable descending sort

`rows.sort(key=k, reverse=True)` / `sorted(rows, key=k, reverse=True)` is the
stable sort by descending key: output keys are non-increasing and rows with
equal keys keep their payload order.  `List.insertionSort` with the relation
`fun a b => key b ≤ key a` is exactly this sort (it inserts each earlier
element before the later ones it ties with). -/
def pySortDesc {α : Type} (key : α → ℚ) (xs : List α) : List α :=
  xs.insertionSort (fun a b => key b ≤ key a)

/-! ### services/id_registry.py — the Identifier Registry

`id_map`, `relationship_map` and `entity_data` are Python dicts; they are
modelled as association lists in insertion order (Python 3.7+ dicts preserve
insertion order, which the code relies on for "first registered ID" lookups).
-/
structure IDRegistry where
  id_map : List (String × List String)
  relationship_map : List ((String × String × String) × List String)
  entity_data : List ((String × String) × List (String × String))
deriving DecidableEq

/-- `self.id_map.get(entity_type, [])`. -/
def dictGetIds (m : List (String × List String)) (k : String) : List String :=
  (m.lookup k).getD []

/-- The `if entity_type not in self.id_map: self.id_map[entity_type] = []`
step shared by `generate_id` and `register_entity`. -/
def ensureKey (m : List (String × List String)) (k : String) :
    List (String × List String) :=
  if (m.lookup k).isSome then m else m ++ [(k, [])]

/-- `self.id_map[entity_type].append(new_id)` (in-place append to the list
stored under an existing key). -/
def appendAt : List (String × List String) → String → String →
    List (String × List String)
  | [], _, _ => []
  | p :: t, k, v => (if p.1 == k then (p.1, p.2 ++ [v]) else p) :: appendAt t k v

/-- `IDRegistry._id_exists`: true iff the ID occurs in *any* entity type's
list. -/
def id_exists (m : List (String × List String)) (idToCheck : String) : Bool :=
  m.any (fun p => p.2.contains idToCheck)

/-- `new_id = f"{prefix}{random_part}" if prefix else random_part`. -/
def mkId (pfx : Option String) (randomPart : String) : String :=
  match pfx with
  | some p => p ++ randomPart
  | none => randomPart

/-- The `while self._id_exists(new_id): redraw` loop of `generate_id`,
run on an explicit supply of random draws; `none` means the supply was
exhausted before a fresh ID was found (the Python loop would still be
drawing). -/
def findFreshId (m : List (String × List String)) (pfx : Option String) :
    List String → Option String
  | [] => none
  | d :: ds =>
    if id_exists m (mkId pfx d) then findFreshId m pfx ds else some (mkId pfx d)

/-- `IDRegistry.generate_id`: draw until fresh, then record the new ID under
`entity_type`.  Returns the ID together with the updated registry. -/
def generate_id (r : IDRegistry) (entity_type : String) (pfx : Option String)
    (draws : List String) : Option (String × IDRegistry) :=
  match findFreshId r.id_map pfx draws with
  | none => none
  | some newId =>
    some (newId,
      { r with id_map := appendAt (ensureKey r.id_map entity_type) entity_type newId })

/-- `self.entity_data[(entity_type, entity_id)] = data` (dict assignment:
overwrite in place or append). -/
def setEntityData (ed : List ((String × String) × List (String × String)))
    (k : String × String) (v : List (String × String)) :
    List ((String × String) × List (String × String)) :=
  if (ed.lookup k).isSome then ed.map (fun p => if p.1 == k then (p.1, v) else p)
  else ed ++ [(k, v)]

/-- `IDRegistry.register_entity`: record an externally supplied ID (only once
per type) and optionally attach entity data (`if data:` — a `None` or empty
dict is skipped). -/
def register_entity (r : IDRegistry) (entity_type entity_id : String)
    (data : Option (List (String × String))) : IDRegistry :=
  let m := ensureKey r.id_map entity_type
  let m := if (dictGetIds m entity_type).contains entity_id then m
           else appendAt m entity_type entity_id
  let ed := match data with
    | some d => if d.isEmpty then r.entity_data
                else setEntityData r.entity_data (entity_type, entity_id) d
    | none => r.entity_data
  { r with id_map := m, entity_data := ed }

/-- `IDRegistry.register_relationship`: append `child_id` to the multimap
entry keyed by `(parent_type, parent_id, child_type)`. -/
def register_relationship (r : IDRegistry) (pt pid ct cid : String) :
    IDRegistry :=
  let k : String × String × String := (pt, pid, ct)
  let rm := if (r.relationship_map.lookup k).isSome then r.relationship_map
            else r.relationship_map ++ [(k, [])]
  { r with relationship_map :=
      rm.map (fun p => if p.1 == k then (p.1, p.2 ++ [cid]) else p) }

/-- Self-contained `flatMap` (used to restate the error-accumulating loops of
`validate_references` in append-free form). -/
def concatMap {α β : Type} (f : α → List β) : List α → List β
  | [] => []
  | a :: t => f a ++ concatMap f t

/-- `IDRegistry.validate_references`: one pass over every registered
relationship, accumulating a parent error and per-child errors, never
stopping early. -/
def validate_references (r : IDRegistry) : List String :=
  r.relationship_map.foldl
    (fun errors entry =>
      let errors :=
        if (dictGetIds r.id_map entry.1.1).contains entry.1.2.1 then errors
        else errors ++ ["Referenced parent entity " ++ entry.1.1 ++ ":" ++
          entry.1.2.1 ++ " does not exist"]
      entry.2.foldl
        (fun es cid =>
          if (dictGetIds r.id_map entry.1.2.2).contains cid then es
          else es ++ ["Referenced child entity " ++ entry.1.2.2 ++ ":" ++
            cid ++ " does not exist"])
        errors)
    []

/-- The errors contributed by a single relationship entry. -/
def entryErrors (idm : List (String × List String))
    (entry : (String × String × String) × List String) : List String :=
  (if (dictGetIds idm entry.1.1).contains entry.1.2.1 then []
   else ["Referenced parent entity " ++ entry.1.1 ++ ":" ++ entry.1.2.1 ++
     " does not exist"]) ++
  concatMap
    (fun cid =>
      if (dictGetIds idm entry.1.2.2).contains cid then []
      else ["Referenced child entity " ++ entry.1.2.2 ++ ":" ++ cid ++
        " does not exist"])
    entry.2

/-! ### services/xml_methods/casing.py — material resolution (C2)

`update_casing_schematics` first walks `casingSchematics['materials']`,
assigning each material its final MATERIAL_ID (payload-supplied `materialId`
or a freshly generated one, modelled by the supply `gens`) and building the
`material_name_to_id` / `material_grade_to_id` dicts; components then resolve
their MATERIAL_ID against those dicts. -/
structure Material where
  materialId : Option String
  materialName : Option String
  grade : Option String
deriving DecidableEq

structure CasingComponent where
  materialId : Option String
  materialName : Option String
  grade : Option String
deriving DecidableEq

/-- Python dict assignment `d[k] = v`: overwrite in place, else append. -/
def insertOverwrite (m : List (String × String)) (k v : String) :
    List (String × String) :=
  if (m.lookup k).isSome then m.map (fun p => if p.1 == k then (p.1, v) else p)
  else m ++ [(k, v)]

/-- The materials loop of `update_casing_schematics`: thread the fresh-id
counter, populating `material_name_to_id` (`.1`) and `material_grade_to_id`
(`.2`). -/
def buildMaterialMapsAux (gens : Nat → String) (k : Nat)
    (nameMap gradeMap : List (String × String)) :
    List Material → List (String × String) × List (String × String)
  | [] => (nameMap, gradeMap)
  | m :: ms =>
    let pr : String × Nat :=
      match m.materialId with
      | some i => (i, k)
      | none => (gens k, k + 1)
    let nameMap' :=
      match m.materialName with
      | some n => insertOverwrite nameMap n pr.1
      | none => nameMap
    let gradeMap' :=
      match m.grade with
      | some g => insertOverwrite gradeMap g pr.1
      | none => gradeMap
    buildMaterialMapsAux gens pr.2 nameMap' gradeMap' ms

def buildMaterialMaps (gens : Nat → String) (mats : List Material) :
    List (String × String) × List (String × String) :=
  buildMaterialMapsAux gens 0 [] [] mats

/-- The MATERIAL_ID resolution chain for one component
(`update_casing_schematics`, "THIS IS THE KEY PART"): explicit `materialId`,
else name lookup, else grade lookup, else first entry of the name→id dict,
else empty string. -/
def resolveMaterialId (nameMap gradeMap : List (String × String))
    (c : CasingComponent) : String :=
  match c.materialId with
  | some i => i
  | none =>
    match c.materialName.bind (fun n => nameMap.lookup n) with
    | some i => i
    | none =>
      match c.grade.bind (fun g => gradeMap.lookup g) with
      | some i => i
      | none =>
        match nameMap.head? with
        | some p => p.2
        | none => ""

def resolveForComponent (gens : Nat → String) (mats : List Material)
    (c : CasingComponent) : String :=
  resolveMaterialId (buildMaterialMaps gens mats).1
    (buildMaterialMaps gens mats).2 c

/-- Each material paired with the MATERIAL_ID it ends up carrying. -/
def assignMaterialIds (gens : Nat → String) : Nat → List Material →
    List (Material × String)
  | _, [] => []
  | k, m :: ms =>
    match m.materialId with
    | some i => (m, i) :: assignMaterialIds gens k ms
    | none => (m, gens k) :: assignMaterialIds gens (k + 1) ms

/-- The name→id entries contributed by the materials loop, in first-occurrence
order (used to restate the dict under a no-duplicate-names hypothesis). -/
def namePairs (gens : Nat → String) : Nat → List Material →
    List (String × String)
  | _, [] => []
  | k, m :: ms =>
    let pr : String × Nat :=
      match m.materialId with
      | some i => (i, k)
      | none => (gens k, k + 1)
    match m.materialName with
    | some n => (n, pr.1) :: namePairs gens pr.2 ms
    | none => namePairs gens pr.2 ms

def gradePairs (gens : Nat → String) : Nat → List Material →
    List (String × String)
  | _, [] => []
  | k, m :: ms =>
    let pr : String × Nat :=
      match m.materialId with
      | some i => (i, k)
      | none => (gens k, k + 1)
    match m.grade with
    | some g => (g, pr.1) :: gradePairs gens pr.2 ms
    | none => gradePairs gens pr.2 ms

/-! ### Flat XML element model

The vendor documents are a flat list of sibling elements under `<export>`;
an element is a tag plus an attribute list in emission order.  `element.set`
(lxml) overwrites an existing attribute in place or appends a new one. -/
structure XMLElem where
  tag : String
  attrs : List (String × String)
deriving DecidableEq

def getAttr (e : XMLElem) (k : String) : Option String :=
  e.attrs.lookup k

/-- lxml `element.set(k, v)`: overwrite the value of an existing attribute in
place, else append the new attribute. -/
def setAttr (e : XMLElem) (k v : String) : XMLElem :=
  if (e.attrs.lookup k).isSome then
    { e with attrs := e.attrs.map (fun p => (p.1, if p.1 == k then v else p.2)) }
  else { e with attrs := e.attrs ++ [(k, v)] }

/-- `create_element` (services/xml/element_operations.py): build a fresh
element and copy the attribute dict onto it (the dict literals all have
distinct keys, so the `element.set` loop writes the dict verbatim). -/
def create_element (tag_name : String) (attributes : List (String × String)) :
    XMLElem :=
  ⟨tag_name, attributes⟩

/-- Python `str()` of a payload number. -/
def ratStr (q : ℚ) : String := toString q

/-- Python `str()` of an optional payload number (`str(None) = "None"`). -/
def optStr (o : Option ℚ) : String :=
  match o with
  | some q => ratStr q
  | none => "None"

/-- Python `str(float(i))` used for SEQUENCE_NO. -/
def floatStr (i : Nat) : String := toString i ++ ".0"

/-- The vendor timestamp literal `format_timestamp` produces. -/
def tsLit (now : String) : String := "\x7bts \x27" ++ now ++ "\x27\x7d"

/-- Python `list.insert(i, x)` (clamps to the end when `i` exceeds the
length). -/
def pyInsert {α : Type} (l : List α) (i : Nat) (x : α) : List α :=
  l.take i ++ x :: l.drop i

/-- Build one element per row, threading the enumeration index (used for
fresh IDs and sequence numbers). -/
def buildFrom {α : Type} (build : Nat → α → XMLElem) : Nat → List α →
    List XMLElem
  | _, [] => []
  | i, x :: xs => build i x :: buildFrom build (i + 1) xs

/-- The shared splice loop `for i, row in enumerate(rows):
parent.insert(pos + i, build(i, row))`. -/
def spliceLoop {α : Type} (build : Nat → α → XMLElem) (pos : Nat) :
    Nat → List XMLElem → List α → List XMLElem
  | _, sib, [] => sib
  | i, sib, x :: xs =>
    spliceLoop build pos (i + 1) (pyInsert sib (pos + i) (build i x)) xs

/-! ### Payload row shapes

Template-mode handlers read rows with `.get(...)` (missing keys default),
modelled with `Option` fields; the full-generation handlers index required
keys directly (payloads are schema-validated upstream), modelled with plain
fields. -/
structure TempRow where
  depth : Option ℚ
  temperature : Option ℚ
deriving DecidableEq

/-- `x.get('depth', 0)`. -/
def rowDepth (p : TempRow) : ℚ := p.depth.getD 0

structure TempRowF where
  depth : ℚ
  temperature : ℚ
deriving DecidableEq

structure PressRow where
  pressureType : Option String
  depth : Option ℚ
  pressure : Option ℚ
  emw : Option ℚ
deriving DecidableEq

structure DlsRow where
  topDepth : Option ℚ
  baseDepth : Option ℚ
  doglegSeverity : Option ℚ
deriving DecidableEq

structure SurveyRow where
  md : Option ℚ
  azimuth : Option ℚ
  inclination : Option ℚ
  tvd : Option ℚ
  doglegSeverity : Option ℚ
  name : Option String
  dataEntryMode : Option String
deriving DecidableEq

/-! ### services/xml/profile_handlers.py — template-mode temperature -/
/-- `remove_existing_elements(root, ".//CD_TEMP_GRADIENT[@TEMP_GRADIENT_GROUP_ID=...]")`. -/
def removeTempGradients (sib : List XMLElem) (groupId : String) :
    List XMLElem :=
  sib.filter (fun e =>
    !(e.tag == "CD_TEMP_GRADIENT" &&
      (getAttr e "TEMP_GRADIENT_GROUP_ID" == some groupId)))

/-- `next((p.get('temperature') for p in temp_profiles if p.get('depth') == 0), None)`
guarded by `if surface_temp is not None`. -/
def templateSurfaceTemp (profiles : List TempRow) : Option ℚ :=
  (profiles.find? (fun p => p.depth == some 0)).bind TempRow.temperature

/-- Set an attribute on `elements[0]`, the first element matching tag and id. -/
def setFirstMatching : List XMLElem → String → String → String → String →
    String → List XMLElem
  | [], _, _, _, _, _ => []
  | e :: t, tag, idAttr, idVal, k, v =>
    if e.tag == tag && (getAttr e idAttr == some idVal) then setAttr e k v :: t
    else e :: setFirstMatching t tag idAttr idVal k v

def setSurfaceTemp (sib : List XMLElem) (groupId : String)
    (profiles : List TempRow) : List XMLElem :=
  match templateSurfaceTemp profiles with
  | some t => setFirstMatching sib "CD_TEMP_GRADIENT_GROUP"
      "TEMP_GRADIENT_GROUP_ID" groupId "SURFACE_AMBIENT_TEMP" (ratStr t)
  | none => sib

/-- `find_group_element`: index of the first matching group element in the
flat sibling list. -/
def findGroupIdx (sib : List XMLElem) (tag idAttr idVal : String) :
    Option Nat :=
  sib.findIdx? (fun e => e.tag == tag && (getAttr e idAttr == some idVal))

def buildTempGradElem (well_id wellbore_id temp_group_id : String)
    (gens : Nat → String) (i : Nat) (p : TempRow) : XMLElem :=
  create_element "CD_TEMP_GRADIENT"
    [("WELL_ID", well_id), ("WELLBORE_ID", wellbore_id),
     ("TEMP_GRADIENT_GROUP_ID", temp_group_id),
     ("TEMP_GRADIENT_ID", gens i),
     ("TEMPERATURE", optStr p.temperature), ("TVD", optStr p.depth)]

/-- The rows the template temperature handler splices: depth > 0 rows,
stably sorted deepest first. -/
def tempSegmentRows (profiles : List TempRow) : List TempRow :=
  pySortDesc rowDepth (profiles.filter (fun p => decide (0 < rowDepth p)))

/-- `update_temperature_profiles` (template mode): purge old points, fold the
first depth-0 row into SURFACE_AMBIENT_TEMP, then splice the sorted depth>0
rows right after the group element.  `none` models the `return False` path
(group anchor missing). -/
def update_temperature_profiles (sib : List XMLElem)
    (well_id wellbore_id temp_group_id : String) (gens : Nat → String)
    (temp_profiles : List TempRow) : Option (List XMLElem) :=
  let sib1 := removeTempGradients sib temp_group_id
  let sib2 := setSurfaceTemp sib1 temp_group_id temp_profiles
  match findGroupIdx sib2 "CD_TEMP_GRADIENT_GROUP" "TEMP_GRADIENT_GROUP_ID"
      temp_group_id with
  | none => none
  | some gi =>
    some (spliceLoop
      (buildTempGradElem well_id wellbore_id temp_group_id gens)
      (gi + 1) 0 sib2 (tempSegmentRows temp_profiles))

/-! ### services/xml/profile_handlers.py — template-mode pressure -/
/-- EMW attribute string for one pressure row (`add_pore_pressure_elements` /
`add_frac_gradient_elements`). -/
def poreEmwAttrStr (p : PressRow) : String :=
  match p.emw with
  | some e => ratStr e
  | none =>
    if 0 < p.depth.getD 0 then
      ratStr (calculate_emw (p.pressure.getD 0) (p.depth.getD 0))
    else "0.0"

def buildPorePressureElem (well_id wellbore_id group_id : String)
    (gens : Nat → String) (i : Nat) (p : PressRow) : XMLElem :=
  create_element "CD_PORE_PRESSURE"
    [("WELL_ID", well_id), ("WELLBORE_ID", wellbore_id),
     ("PORE_PRESSURE_GROUP_ID", group_id), ("PORE_PRESSURE_ID", gens i),
     ("PORE_PRESSURE", optStr p.pressure), ("TVD", optStr p.depth),
     ("IS_PERMEABLE_ZONE", "Y"), ("PORE_PRESSURE_EMW", poreEmwAttrStr p)]

def buildFracGradientElem (well_id wellbore_id group_id : String)
    (gens : Nat → String) (i : Nat) (p : PressRow) : XMLElem :=
  create_element "CD_FRAC_GRADIENT"
    [("WELL_ID", well_id), ("WELLBORE_ID", wellbore_id),
     ("FRAC_GRADIENT_GROUP_ID", group_id), ("FRAC_GRADIENT_ID", gens i),
     ("FRAC_GRADIENT_PRESSURE", optStr p.pressure), ("TVD", optStr p.depth),
     ("FRAC_GRADIENT_EMW", poreEmwAttrStr p)]

/-- Pore rows of `update_pressure_profiles` after partition and stable
descending sort. -/
def poreSegmentRows (pressure_profiles : List PressRow) : List PressRow :=
  pySortDesc (fun p => p.depth.getD 0)
    (pressure_profiles.filter (fun p => p.pressureType.getD "" == "Pore"))

def fracSegmentRows (pressure_profiles : List PressRow) : List PressRow :=
  pySortDesc (fun p => p.depth.getD 0)
    (pressure_profiles.filter (fun p => p.pressureType.getD "" == "Frac"))

/-- `add_pore_pressure_elements`: insert one element per sorted row at
`start_index + 1 + i`. -/
def add_pore_pressure_elements (sib : List XMLElem) (rows : List PressRow)
    (well_id wellbore_id group_id : String) (gens : Nat → String)
    (start_index : Nat) : List XMLElem :=
  spliceLoop (buildPorePressureElem well_id wellbore_id group_id gens)
    (start_index + 1) 0 sib rows

def add_frac_gradient_elements (sib : List XMLElem) (rows : List PressRow)
    (well_id wellbore_id group_id : String) (gens : Nat → String)
    (start_index : Nat) : List XMLElem :=
  spliceLoop (buildFracGradientElem well_id wellbore_id group_id gens)
    (start_index + 1) 0 sib rows

/-! ### services/xml/dls_handlers.py and survey_handlers.py (template mode) -/
def buildDlsOverrideElem (well_id wellbore_id scenario_id dls_group_id : String)
    (gens : Nat → String) (now : String) (i : Nat) (o : DlsRow) : XMLElem :=
  create_element "TU_DLS_OVERRIDE"
    [("WELL_ID", well_id), ("WELLBORE_ID", wellbore_id),
     ("SCENARIO_ID", scenario_id), ("DLS_OVERRIDE_GROUP_ID", dls_group_id),
     ("DLS_OVERRIDE_ID", gens i),
     ("MD_TOP", optStr o.topDepth), ("MD_BASE", optStr o.baseDepth),
     ("DOGLEG_SEVERITY", optStr o.doglegSeverity),
     ("CREATE_DATE", tsLit now), ("CREATE_USER_ID", "API_USER"),
     ("CREATE_APP_ID", "XML_API"), ("UPDATE_DATE", tsLit now),
     ("UPDATE_USER_ID", "API_USER"), ("UPDATE_APP_ID", "XML_API")]

/-- `sorted(dls_overrides, key=lambda x: float(x.get('topDepth', 0)), reverse=True)`. -/
def dlsSegmentRows (dls_overrides : List DlsRow) : List DlsRow :=
  pySortDesc (fun o => o.topDepth.getD 0) dls_overrides

def buildSurveyStationElem (well_id wellbore_id survey_header_id : String)
    (gens : Nat → String) (i : Nat) (s : SurveyRow) : XMLElem :=
  create_element "CD_DEFINITIVE_SURVEY_STATION"
    ([("WELL_ID", well_id), ("WELLBORE_ID", wellbore_id),
      ("DEF_SURVEY_HEADER_ID", survey_header_id),
      ("DEFINITIVE_SURVEY_ID", gens i),
      ("AZIMUTH", optStr s.azimuth), ("INCLINATION", optStr s.inclination),
      ("MD", optStr s.md), ("SEQUENCE_NO", floatStr i),
      ("DATA_ENTRY_MODE", s.dataEntryMode.getD "0")] ++
     (match s.tvd with
      | some t => [("TVD", ratStr t)]
      | none => []) ++
     (match s.doglegSeverity with
      | some d => [("DOGLEG_SEVERITY", ratStr d)]
      | none => []))

/-- `sorted(survey_stations, key=lambda x: float(x.get('md', 0)), reverse=True)`. -/
def surveySegmentRows (survey_stations : List SurveyRow) : List SurveyRow :=
  pySortDesc (fun s => s.md.getD 0) survey_stations

/-! ### services/xml_methods/formation.py — full-generation temperature
(no sorting: rows are emitted in payload order) -/
/-- The `for profile in ...: if profile['depth'] == 0: ...; break` loop that
feeds SURFACE_AMBIENT_TEMP. -/
def formationSurfaceTemp : List TempRowF → Option ℚ
  | [] => none
  | p :: ps => if p.depth == 0 then some p.temperature else formationSurfaceTemp ps

def buildFormationTempElem (temp_group_id : String) (gens : Nat → String)
    (well_ids wellbore_ids : List String) (i : Nat) (p : TempRowF) : XMLElem :=
  ⟨"CD_TEMP_GRADIENT",
    [("TEMP_GRADIENT_GROUP_ID", temp_group_id),
     ("TEMP_GRADIENT_ID", gens i),
     ("TEMPERATURE", ratStr p.temperature), ("TVD", ratStr p.depth)] ++
    (match wellbore_ids.head? with
     | some wb =>
       ("WELLBORE_ID", wb) ::
         (match well_ids.head? with
          | some w => [("WELL_ID", w)]
          | none => [])
     | none => [])⟩

/-- The CD_TEMP_GRADIENT elements `update_formation_inputs` appends: one per
depth>0 row, in payload order (the loop does not sort). -/
def formationTempPoints (temp_group_id : String) (gens : Nat → String)
    (well_ids wellbore_ids : List String) (rows : List TempRowF) :
    List XMLElem :=
  buildFrom (buildFormationTempElem temp_group_id gens well_ids wellbore_ids)
    0 (rows.filter (fun p => decide (0 < p.depth)))

/-! ### services/xml/element_operations.py — template-mode attribute update -/
def elemMatches (e : XMLElem) (tag_name id_attr id_value : String) : Bool :=
  e.tag == tag_name && (getAttr e id_attr == some id_value)

/-- The per-element body of `update_element_attribute`: set the requested
attribute, then (unless it is CREATE_DATE/UPDATE_DATE itself) stamp
UPDATE_DATE / UPDATE_USER_ID / UPDATE_APP_ID. -/
def applyAttrUpdate (e : XMLElem) (attr_name attr_value now : String) :
    XMLElem :=
  let e1 := setAttr e attr_name attr_value
  if attr_name == "CREATE_DATE" || attr_name == "UPDATE_DATE" then e1
  else
    setAttr (setAttr (setAttr e1 "UPDATE_DATE" (tsLit now))
      "UPDATE_USER_ID" "API_USER") "UPDATE_APP_ID" "XML_API"

/-- `update_element_attribute` over the flat document: returns the updated
document and whether any element matched. -/
def update_element_attribute (doc : List XMLElem)
    (tag_name id_attr id_value attr_name attr_value now : String) :
    List XMLElem × Bool :=
  if doc.any (fun e => elemMatches e tag_name id_attr id_value) then
    (doc.map (fun e =>
      if elemMatches e tag_name id_attr id_value then
        applyAttrUpdate e attr_name attr_value now
      else e), true)
  else (doc, false)

/-! ### services/xml_methods/scenario.py — Case linker (C8) -/
/-- `ATTRIBUTE_ORDER` from utils/xml_helpers.py. -/
def ATTRIBUTE_ORDER : List String :=
  ["WELL_ID", "WELLBORE_ID", "SITE_ID", "PROJECT_ID",
   "ASSEMBLY_ID", "ASSEMBLY_COMP_ID", "SCENARIO_ID", "CASE_ID",
   "DATUM_ID", "ORIGINAL_TUBULAR_DATUM_ID",
   "DLS_OVERRIDE_GROUP_ID", "DLS_OVERRIDE_ID",
   "TEMP_GRADIENT_GROUP_ID", "TEMP_GRADIENT_ID",
   "PORE_PRESSURE_GROUP_ID", "PORE_PRESSURE_ID",
   "FRAC_GRADIENT_GROUP_ID", "FRAC_GRADIENT_ID",
   "DEF_SURVEY_HEADER_ID", "DEFINITIVE_SURVEY_ID",
   "PACKER_NAME", "NAME", "PHASE", "TIGHT_GROUP_ID", "WELLBORE_NAME",
   "WELL_COMMON_NAME",
   "IS_LINKED", "SEQUENCE_NO", "IS_ACTIVE", "IS_READONLY", "IS_OFFSHORE",
   "STRING_TYPE", "STRING_CLASS", "ASSEMBLY_SIZE", "HOLE_SIZE",
   "ASSEMBLY_NAME", "CASE_NAME",
   "MD_ASSEMBLY_TOP", "MD_ASSEMBLY_BASE", "MD_TOC",
   "TOP_DEPTH", "BASE_DEPTH", "MD_TOP", "MD_BASE", "LENGTH", "DEPTH",
   "CREATE_DATE", "CREATE_USER_ID", "CREATE_APP_ID",
   "UPDATE_DATE", "UPDATE_USER_ID", "UPDATE_APP_ID"]

/-- `set_attributes_ordered`: emit known attributes in the fixed precedence
order, then the rest in dict order. -/
def set_attributes_ordered (e : XMLElem)
    (attributes : List (String × String)) : XMLElem :=
  let e1 := ATTRIBUTE_ORDER.foldl (fun acc k =>
    match attributes.lookup k with
    | some v => setAttr acc k v
    | none => acc) e
  attributes.foldl (fun acc p =>
    if ATTRIBUTE_ORDER.contains p.1 then acc else setAttr acc p.1 p.2) e1

/-- `add_creation_info`: stamp the six audit attributes (via
`set_attributes_ordered`, whose fixed order ends with exactly these six). -/
def add_creation_info (e : XMLElem) (now : String) : XMLElem :=
  set_attributes_ordered e
    [("CREATE_DATE", tsLit now), ("UPDATE_DATE", tsLit now),
     ("CREATE_USER_ID", "API_USER"), ("UPDATE_USER_ID", "API_USER"),
     ("CREATE_APP_ID", "XML_API"), ("UPDATE_APP_ID", "XML_API")]

def get_entity_data (r : IDRegistry) (t i : String) :
    Option (List (String × String)) :=
  r.entity_data.lookup (t, i)

/-- The relationship scan of `add_case_elements`: first entry with
`e_type == 'ASSEMBLY'`, `c_type == 'CASE'` and the case id among the
children. -/
def findAssemblyForCase
    (rm : List ((String × String × String) × List String))
    (case_id : String) : Option String :=
  (rm.find? (fun p =>
    p.1.1 == "ASSEMBLY" && p.1.2.2 == "CASE" && p.2.contains case_id)).map
    (fun p => p.1.2.1)

def caseName (r : IDRegistry) (assembly_id : String) (i : Nat) : String :=
  match (get_entity_data r "ASSEMBLY" assembly_id).bind
      (fun d => d.lookup "assemblyName") with
  | some n => n
  | none => "Case " ++ toString (i + 1)

def buildCaseElem (r : IDRegistry) (now scenario_id well_id wellbore_id : String)
    (i : Nat) (case_id assembly_id : String) : XMLElem :=
  add_creation_info
    (set_attributes_ordered ⟨"CD_CASE", []⟩
      [("WELL_ID", well_id), ("WELLBORE_ID", wellbore_id),
       ("CASE_ID", case_id), ("SCENARIO_ID", scenario_id),
       ("ASSEMBLY_ID", assembly_id), ("IS_LINKED", "Y"),
       ("SEQUENCE_NO", floatStr i), ("CASE_NAME", caseName r assembly_id i)])
    now

/-- The `for i, case_id in enumerate(case_ids)` loop (a case with no
ASSEMBLY→CASE relationship is skipped but still consumes its index). -/
def buildCaseElemsFrom (r : IDRegistry)
    (now scenario_id well_id wellbore_id : String) :
    Nat → List String → List XMLElem
  | _, [] => []
  | i, cid :: rest =>
    match findAssemblyForCase r.relationship_map cid with
    | none => buildCaseElemsFrom r now scenario_id well_id wellbore_id (i + 1) rest
    | some aid =>
      buildCaseElem r now scenario_id well_id wellbore_id i cid aid ::
        buildCaseElemsFrom r now scenario_id well_id wellbore_id (i + 1) rest

/-- `add_case_elements`: guard on required IDs, skip entirely when CD_CASE
elements already exist, else append one Case element per linked case. -/
def add_case_elements (r : IDRegistry) (children : List XMLElem)
    (now : String) : List XMLElem :=
  let scenario_ids := dictGetIds r.id_map "SCENARIO"
  let assembly_ids := dictGetIds r.id_map "ASSEMBLY"
  let well_ids := dictGetIds r.id_map "WELL"
  let wellbore_ids := dictGetIds r.id_map "WELLBORE"
  let case_ids := dictGetIds r.id_map "CASE"
  if scenario_ids.isEmpty || assembly_ids.isEmpty || case_ids.isEmpty then
    children
  else if !(children.filter (fun e => e.tag == "CD_CASE")).isEmpty then
    children
  else
    children ++ buildCaseElemsFrom r now (scenario_ids.head?.getD "")
      (well_ids.head?.getD "") (wellbore_ids.head?.getD "") 0 case_ids

/-! ### Serialization pipeline (utils/xml_helpers.py) — C7

`generate_xml` renders the document with `xml_to_string` and then repairs it
with `fix_xml_structure`.  Both are line-oriented string post-processors (the
documents are pretty-printed one element per line), so the document text is
modelled as its list of lines; the `re.sub('><', '>\n<')` and the three
newline-insertion regexes of `ensure_elements_on_new_lines` only split tags
that share a line and are identities in this representation.  The lxml
`fromstring`/`tostring` round-trip inside `fix_xml_structure` parses the
document and re-serializes the *root element only*, which drops the XML
declaration and any processing instructions in the prolog. -/
/-- Substring scan (structural, so that concrete runs reduce in the kernel). -/
def listInfix (needle : List Char) : List Char → Bool
  | [] => needle.isEmpty
  | c :: rest => needle.isPrefixOf (c :: rest) || listInfix needle rest

/-- Python `sub in s`. -/
def strContains (l sub : String) : Bool := listInfix sub.toList l.toList

/-- Python `s.startswith(pre)` (structural). -/
def strStarts (l pre : String) : Bool := pre.toList.isPrefixOf l.toList

/-- Python `str.strip()`. -/
def pyStrip (s : String) : String :=
  (((s.toList.dropWhile (fun c => c.isWhitespace)).reverse.dropWhile
    (fun c => c.isWhitespace)).reverse).asString

/-- The declaration lxml emits (`tostring(..., xml_declaration=True)`). -/
def lxmlDecl : String := "<?xml version=\x271.0\x27 encoding=\x27utf-8\x27?>"

/-- The two-line vendor preamble installed by `xml_to_string`. -/
def vendorDeclLine : String := "<?xml version=\"1.0\" standalone=\"no\"?>"

def dataServicesLine : String :=
  "<?DataServices DB_Major_Version=14;DB_Minor_Version=00;DB_Build_Version=000;DB_Version=EDM 5000.14.0 (14.00.00.000);expandPoint=CD_SCENARIO;?>"

/-- The declaration `fix_xml_structure` prepends after the re-serialization. -/
def encDeclLine : String := "<?xml version=\"1.0\" encoding=\"utf-8\"?>"

def attrsText (attrs : List (String × String)) : String :=
  String.join (attrs.map (fun p => " " ++ p.1 ++ "=\"" ++ p.2 ++ "\""))

/-- lxml pretty-printed serialization of the flat `<export>` document: one
line per element. -/
def serializeDocLines (children : List XMLElem) : List String :=
  "<export>" ::
    (children.map (fun e => "  <" ++ e.tag ++ attrsText e.attrs ++ "/>") ++
      ["</export>"])

/-- `xml_to_string` (lxml branch): serialize with a declaration, break `><`
pairs onto separate lines (identity here), and if no DataServices PI is
present replace the lxml declaration line with the two-line vendor
preamble. -/
def xml_to_string (children : List XMLElem) : List String :=
  let withDecl := lxmlDecl :: serializeDocLines children
  if withDecl.any (fun l => strContains l "<?DataServices") then withDecl
  else
    concatMap
      (fun l =>
        if l = lxmlDecl ∨ l = encDeclLine then [vendorDeclLine, dataServicesLine]
        else [l])
      withDecl

/-- The strip-skip-indent loop of `ensure_elements_on_new_lines` (after the
newline normalization, which is an identity on the line representation). -/
def ensureLinesStep (acc : List String × Nat) (line : String) :
    List String × Nat :=
  let line := pyStrip line
  if line = "" then acc
  else
    let indent := if strStarts line "</" then acc.2 - 1 else acc.2
    let acc1 := acc.1 ++ [String.join (List.replicate indent "  ") ++ line]
    let indent2 :=
      if strContains line "<" && strContains line ">" &&
          !(strStarts line "<?" || strContains line "/>" || strContains line "</")
      then indent + 1 else indent
    (acc1, indent2)

def ensure_elements_on_new_lines (lines : List String) : List String :=
  (lines.foldl ensureLinesStep ([], 0)).1

/-- `fix_xml_structure` on the line representation: deduplicate repeated
declarations / DataServices PIs (later duplicates are blanked, as
`str.replace(dup, "")` does), strip `root` wrapper remnants, drop a
`</TOPLEVEL>` that ended up after `</export>`, ensure `</export>` exists,
then re-serialize via the lxml round-trip (losing the prolog), prepend the
`encoding="utf-8"` declaration plus DataServices PI when the result does not
start with a declaration, and re-indent. -/
def fix_xml_structure (input : List String) : List String :=
  let xmlDecls := input.filter (fun l => strStarts l "<?xml")
  let ls1 := if 1 < xmlDecls.length then
      input.map (fun l => if (xmlDecls.drop 1).contains l then "" else l)
    else input
  let dsInstrs := ls1.filter (fun l => strStarts l "<?DataServices")
  let ls2 := if 1 < dsInstrs.length then
      ls1.map (fun l => if (dsInstrs.drop 1).contains l then "" else l)
    else ls1
  let ls3 := ls2.map (fun l => if l = "<root>" ∨ l = "</root>" then "" else l)
  let ls4 :=
    match ls3.findIdx? (fun l => strContains l "</TOPLEVEL>"),
        ls3.findIdx? (fun l => strContains l "</export>") with
    | some ti, some ei =>
      if ei < ti then ls3.map (fun l => if l = "</TOPLEVEL>" then "" else l)
      else ls3
    | _, _ => ls3
  let ls5 := if ls4.any (fun l => strContains l "<export>") &&
      !(ls4.any (fun l => strContains l "</export>")) then ls4 ++ ["</export>"]
    else ls4
  let body := ls5.filter (fun l => !(strStarts l "<?" || l == ""))
  let result := if !(strStarts (body.headD "") "<?xml") then
      encDeclLine :: dataServicesLine :: body
    else body
  let result := if !dsInstrs.isEmpty &&
      !(result.any (fun l => strContains l "<?DataServices")) then
      concatMap
        (fun l => if l = encDeclLine then
            [encDeclLine, dataServicesLine, dsInstrs.headD "", ""]
          else [l]) result
    else result
  ensure_elements_on_new_lines result

/-- The serialization tail of `generate_xml`:
`fix_xml_structure(xml_to_string(root))`. -/
def generate_xml_serialization (children : List XMLElem) : List String :=
  fix_xml_structure (xml_to_string children)

/-- The block `parent.insert(group_index + 1 + i, ...)` produces: the new
elements as one contiguous run immediately after position `gi`. -/
def spliceAfter (sib : List XMLElem) (gi : Nat) (elems : List XMLElem) :
    List XMLElem :=
  sib.take (gi + 1) ++ elems ++ sib.drop (gi + 1)

/-- `remove_existing_elements(root, ".//TAG")` with a bare tag xpath. -/
def removeByTag (sib : List XMLElem) (tag : String) : List XMLElem :=
  sib.filter (fun e => !(e.tag == tag))

/-- `update_pressure_profiles` (template mode, profile_handlers.py): purge
all pore/frac elements, partition and sort the payload rows, then — for each
of the two groups whose anchor exists and whose row list is non-empty —
splice the sorted rows right after the anchor.  A missing anchor only skips
that group (the handler logs a warning and still returns True).  The two
fresh-ID supplies model the successive `generate_random_id()` draws of the
two loops. -/
def update_pressure_profiles (sib : List XMLElem)
    (well_id wellbore_id pore_group_id frac_group_id : String)
    (gens gens2 : Nat → String) (pressure_profiles : List PressRow) :
    List XMLElem :=
  let sib1 := removeByTag (removeByTag sib "CD_PORE_PRESSURE") "CD_FRAC_GRADIENT"
  let pore_pressures := poreSegmentRows pressure_profiles
  let frac_pressures := fracSegmentRows pressure_profiles
  let sib2 :=
    if pore_pressures.isEmpty then sib1
    else
      match findGroupIdx sib1 "CD_PORE_PRESSURE_GROUP" "PORE_PRESSURE_GROUP_ID"
          pore_group_id with
      | some gi => add_pore_pressure_elements sib1 pore_pressures well_id
          wellbore_id pore_group_id gens gi
      | none => sib1
  if frac_pressures.isEmpty then sib2
  else
    match findGroupIdx sib2 "CD_FRAC_GRADIENT_GROUP" "FRAC_GRADIENT_GROUP_ID"
        frac_group_id with
    | some gi => add_frac_gradient_elements sib2 frac_pressures well_id
        wellbore_id frac_group_id gens2 gi
    | none => sib2

/-- `remove_existing_elements(root, ".//TU_DLS_OVERRIDE[@DLS_OVERRIDE_GROUP_ID=...]")`. -/
def removeDlsOverrides (sib : List XMLElem) (groupId : String) :
    List XMLElem :=
  sib.filter (fun e =>
    !(e.tag == "TU_DLS_OVERRIDE" &&
      (getAttr e "DLS_OVERRIDE_GROUP_ID" == some groupId)))

/-- `update_dls_overrides` (template mode, dls_handlers.py): purge the
group's overrides, find the group anchor (`none` models `return False`),
then splice the rows sorted deepest-first by top depth right after it. -/
def update_dls_overrides (sib : List XMLElem)
    (well_id wellbore_id scenario_id dls_group_id : String)
    (gens : Nat → String) (now : String) (dls_overrides : List DlsRow) :
    Option (List XMLElem) :=
  let sib1 := removeDlsOverrides sib dls_group_id
  match findGroupIdx sib1 "TU_DLS_OVERRIDE_GROUP" "DLS_OVERRIDE_GROUP_ID"
      dls_group_id with
  | none => none
  | some gi =>
    some (spliceLoop
      (buildDlsOverrideElem well_id wellbore_id scenario_id dls_group_id gens now)
      (gi + 1) 0 sib1 (dlsSegmentRows dls_overrides))

/-- `remove_existing_elements(root, ".//CD_DEFINITIVE_SURVEY_STATION[@DEF_SURVEY_HEADER_ID=...]")`. -/
def removeSurveyStations (sib : List XMLElem) (headerId : String) :
    List XMLElem :=
  sib.filter (fun e =>
    !(e.tag == "CD_DEFINITIVE_SURVEY_STATION" &&
      (getAttr e "DEF_SURVEY_HEADER_ID" == some headerId)))

/-- The header-name update block of `update_survey_stations`:
`if survey_stations and 'name' in survey_stations[0]:
header_elements[0].set('NAME', ...)`. -/
def surveyHeaderNamed (sib1 : List XMLElem) (survey_header_id : String)
    (survey_stations : List SurveyRow) : List XMLElem :=
  match survey_stations.head?.bind SurveyRow.name with
  | some nm => setFirstMatching sib1 "CD_DEFINITIVE_SURVEY_HEADER"
      "DEF_SURVEY_HEADER_ID" survey_header_id "NAME" nm
  | none => sib1

/-- `update_survey_stations` (template mode, survey_handlers.py): purge the
header's stations, find the header (`none` models `return False`), copy the
first station's `name` onto the header if present, then splice the stations
sorted deepest-first by MD right after the header. -/
def update_survey_stations (sib : List XMLElem)
    (well_id wellbore_id survey_header_id : String) (gens : Nat → String)
    (survey_stations : List SurveyRow) : Option (List XMLElem) :=
  let sib1 := removeSurveyStations sib survey_header_id
  match findGroupIdx sib1 "CD_DEFINITIVE_SURVEY_HEADER" "DEF_SURVEY_HEADER_ID"
      survey_header_id with
  | none => none
  | some hi =>
    some (spliceLoop
      (buildSurveyStationElem well_id wellbore_id survey_header_id gens)
      (hi + 1) 0 (surveyHeaderNamed sib1 survey_header_id survey_stations)
      (surveySegmentRows survey_stations))

/-! ### services/xml_methods — full-generation pressure / DLS / survey
(payload order, no sorting) -/

/-- A schema-validated pressure row as `update_formation_inputs` reads it
(`pressureType`, `depth`, `pressure` indexed directly; `emw` optional). -/
structure PressRowF where
  pressureType : String
  depth : ℚ
  pressure : ℚ
  emw : Option ℚ
deriving DecidableEq

/-- The `WELLBORE_ID` / `WELL_ID` tail every generation-path element gets
(`if wellbore_ids: ... if well_ids: ...`). -/
def wellboreWellTail (well_ids wellbore_ids : List String) :
    List (String × String) :=
  match wellbore_ids.head? with
  | some wb =>
    ("WELLBORE_ID", wb) ::
      (match well_ids.head? with
       | some w => [("WELL_ID", w)]
       | none => [])
  | none => []

def buildFormationPoreElem (pore_group_id : String) (gens : Nat → String)
    (well_ids wellbore_ids : List String) (i : Nat) (p : PressRowF) : XMLElem :=
  ⟨"CD_PORE_PRESSURE",
    [("PORE_PRESSURE_GROUP_ID", pore_group_id), ("PORE_PRESSURE_ID", gens i),
     ("PORE_PRESSURE", ratStr p.pressure), ("TVD", ratStr p.depth),
     ("IS_PERMEABLE_ZONE", "Y"),
     ("PORE_PRESSURE_EMW", ratStr (poreEmwValue p.emw p.pressure p.depth))] ++
    wellboreWellTail well_ids wellbore_ids⟩

/-- The pore loop of `update_formation_inputs`: one CD_PORE_PRESSURE per
`pressureType == 'Pore'` row, appended in payload order. -/
def formationPorePoints (pore_group_id : String) (gens : Nat → String)
    (well_ids wellbore_ids : List String) (rows : List PressRowF) :
    List XMLElem :=
  buildFrom (buildFormationPoreElem pore_group_id gens well_ids wellbore_ids)
    0 (rows.filter (fun p => p.pressureType == "Pore"))

def buildFormationFracElem (frac_group_id : String) (gens : Nat → String)
    (well_ids wellbore_ids : List String) (i : Nat) (p : PressRowF) : XMLElem :=
  ⟨"CD_FRAC_GRADIENT",
    [("FRAC_GRADIENT_GROUP_ID", frac_group_id), ("FRAC_GRADIENT_ID", gens i),
     ("FRAC_GRADIENT_PRESSURE", ratStr p.pressure), ("TVD", ratStr p.depth),
     ("FRAC_GRADIENT_EMW", ratStr (poreEmwValue p.emw p.pressure p.depth))] ++
    wellboreWellTail well_ids wellbore_ids⟩

/-- The frac loop of `update_formation_inputs`. -/
def formationFracPoints (frac_group_id : String) (gens : Nat → String)
    (well_ids wellbore_ids : List String) (rows : List PressRowF) :
    List XMLElem :=
  buildFrom (buildFormationFracElem frac_group_id gens well_ids wellbore_ids)
    0 (rows.filter (fun p => p.pressureType == "Frac"))

/-- A DLS override row as `update_dls_overrides`
(services/xml_methods/dls.py) reads it: every field presence-checked. -/
structure DlsRowG where
  overrideId : Option String
  topDepth : Option ℚ
  baseDepth : Option ℚ
  doglegSeverity : Option ℚ
deriving DecidableEq

/-- An optional numeric attribute (`if 'k' in row: elem.set(K, str(row['k']))`). -/
def optAttr (k : String) (v : Option ℚ) : List (String × String) :=
  match v with
  | some q => [(k, ratStr q)]
  | none => []

def buildGenDlsOverrideElem (group_id : Option String)
    (scenario_ids well_ids wellbore_ids : List String) (now : String)
    (o : DlsRowG) : XMLElem :=
  add_creation_info
    ⟨"TU_DLS_OVERRIDE",
      (match o.overrideId with
       | some i => [("DLS_OVERRIDE_ID", i)]
       | none => []) ++
      [("DLS_OVERRIDE_GROUP_ID", group_id.getD "")] ++
      wellboreWellTail well_ids wellbore_ids ++
      (match scenario_ids.head? with
       | some s => [("SCENARIO_ID", s)]
       | none => []) ++
      optAttr "MD_TOP" o.topDepth ++ optAttr "MD_BASE" o.baseDepth ++
      optAttr "DOGLEG_SEVERITY" o.doglegSeverity⟩
    now

/-- The override loop of the full-generation `update_dls_overrides`
(services/xml_methods/dls.py): one TU_DLS_OVERRIDE per row, appended in
payload order (no sorting). -/
def update_dls_overrides_gen (group_id : Option String)
    (scenario_ids well_ids wellbore_ids : List String) (now : String)
    (overrides : List DlsRowG) : List XMLElem :=
  overrides.map
    (buildGenDlsOverrideElem group_id scenario_ids well_ids wellbore_ids now)

/-- A survey station row as the full-generation `update_survey_header`
(services/xml_methods/survey.py) reads it.  The station loop copies every
payload key through `convert_camel_to_xml_key` in dict order; the schema
fields are modelled with their converted names (md→MD, azimuth→AZIMUTH,
inclination→INCLINATION, tvd→TVD, doglegSeverity→DOGLEG_SEVERITY) in one
fixed order, which is immaterial: attribute order inside an element is not
at issue and the keys are distinct. -/
structure SurveyRowG where
  stationId : Option String
  md : Option ℚ
  azimuth : Option ℚ
  inclination : Option ℚ
  tvd : Option ℚ
  doglegSeverity : Option ℚ
deriving DecidableEq

def buildGenSurveyStationElem (header_id : Option String) (s : SurveyRowG) :
    XMLElem :=
  ⟨"CD_DEFINITIVE_SURVEY_STATION",
    (match s.stationId with
     | some i => [("DEFINITIVE_SURVEY_ID", i)]
     | none => []) ++
    [("DEF_SURVEY_HEADER_ID", header_id.getD "")] ++
    optAttr "MD" s.md ++ optAttr "AZIMUTH" s.azimuth ++
    optAttr "INCLINATION" s.inclination ++ optAttr "TVD" s.tvd ++
    optAttr "DOGLEG_SEVERITY" s.doglegSeverity⟩

/-- The station loop of the full-generation `update_survey_header`: one
CD_DEFINITIVE_SURVEY_STATION per row, appended in payload order (no
sorting). -/
def update_survey_header_stations (header_id : Option String)
    (stations : List SurveyRowG) : List XMLElem :=
  stations.map (buildGenSurveyStationElem header_id)

theorem pySortDesc_sorted {α : Type} (key : α → ℚ) (xs : List α) :
    (pySortDesc key xs).Pairwise (fun a b => key b ≤ key a) := by
  have htot : IsTotal α (fun a b => key b ≤ key a) :=
    ⟨fun a b => le_total (key b) (key a)⟩
  have htrans : IsTrans α (fun a b => key b ≤ key a) :=
    ⟨fun _ _ _ h1 h2 => le_trans h2 h1⟩
  exact @List.sorted_insertionSort α _ _ htot htrans xs

theorem filter_orderedInsert_key_eq {α : Type} (key : α → ℚ) (k : ℚ) (x : α)
    (hx : key x = k) (l : List α) :
    (List.orderedInsert (fun a b => key b ≤ key a) x l).filter
        (fun a => key a == k) =
      x :: l.filter (fun a => key a == k) := by
  have hxk : (key x == k) = true := by simpa using hx
  induction l with
  | nil => simp [List.orderedInsert, List.filter_cons, hxk]
  | cons b t ih =>
    by_cases h : key b ≤ key x
    · simp [List.orderedInsert, if_pos h, List.filter_cons, hxk]
    · have hbk : (key b == k) = false := by
        simp only [beq_eq_false_iff_ne, ne_eq]
        intro hbe
        exact h (by rw [hbe, hx])
      simp [List.orderedInsert, if_neg h, List.filter_cons, hbk, ih]

theorem filter_orderedInsert_key_ne {α : Type} (key : α → ℚ) (k : ℚ) (x : α)
    (hx : key x ≠ k) (l : List α) :
    (List.orderedInsert (fun a b => key b ≤ key a) x l).filter
        (fun a => key a == k) =
      l.filter (fun a => key a == k) := by
  have hxk : (key x == k) = false := by simpa using hx
  induction l with
  | nil => simp [List.orderedInsert, List.filter_cons, hxk]
  | cons b t ih =>
    by_cases h : key b ≤ key x
    · simp [List.orderedInsert, if_pos h, List.filter_cons, hxk]
    · simp [List.orderedInsert, if_neg h, List.filter_cons, ih]

/-- Stability of the descending sort: for every key value, the rows carrying
that key come out in exactly their payload order. -/
theorem pySortDesc_stable {α : Type} (key : α → ℚ) (xs : List α) (k : ℚ) :
    (pySortDesc key xs).filter (fun a => key a == k) =
      xs.filter (fun a => key a == k) := by
  induction xs with
  | nil => rfl
  | cons x t ih =>
    simp only [pySortDesc, List.insertionSort] at *
    by_cases hx : key x = k
    · rw [filter_orderedInsert_key_eq key k x hx, ih]
      have hxk : (key x == k) = true := by simpa using hx
      simp [List.filter_cons, hxk]
    · rw [filter_orderedInsert_key_ne key k x hx, ih]
      have hxk : (key x == k) = false := by simpa using hx
      simp [List.filter_cons, hxk]

theorem pySortDesc_perm {α : Type} (key : α → ℚ) (xs : List α) :
    (pySortDesc key xs).Perm xs :=
  List.perm_insertionSort _ xs

/-! #### Registry lemmas -/
theorem lookup_append_right {β : Type} (m l : List (String × β)) (k : String)
    (h : m.lookup k = none) : (m ++ l).lookup k = l.lookup k := by
  induction m with
  | nil => rfl
  | cons p t ih =>
    obtain ⟨a, b⟩ := p
    by_cases hk : k = a
    · subst hk
      simp [List.lookup] at h
    · have h2 : (k == a) = false := beq_eq_false_iff_ne.mpr hk
      simp only [List.cons_append, List.lookup, h2] at h ⊢
      exact ih h

theorem lookup_appendAt (m : List (String × List String)) (k v : String) :
    (appendAt m k v).lookup k = (m.lookup k).map (fun l => l ++ [v]) := by
  induction m with
  | nil => rfl
  | cons p t ih =>
    obtain ⟨a, b⟩ := p
    by_cases hk : k = a
    · subst hk
      have hred : appendAt ((k, b) :: t) k v = (k, b ++ [v]) :: appendAt t k v := by
        simp [appendAt]
      rw [hred]
      simp [List.lookup]
    · have h1 : (a == k) = false := beq_eq_false_iff_ne.mpr fun hh => hk hh.symm
      have h2 : (k == a) = false := beq_eq_false_iff_ne.mpr hk
      have hred : appendAt ((a, b) :: t) k v = (a, b) :: appendAt t k v := by
        simp [appendAt, h1]
      rw [hred]
      simp only [List.lookup, h2]
      exact ih

theorem lookup_ensureKey (m : List (String × List String)) (k : String) :
    (ensureKey m k).lookup k = some ((m.lookup k).getD []) := by
  unfold ensureKey
  cases h : m.lookup k with
  | some v => simp [h]
  | none =>
    simp only [h, Option.isSome_none, Bool.false_eq_true, if_false, Option.getD_none]
    rw [lookup_append_right m _ k h]
    simp [List.lookup]

theorem dictGetIds_ensureKey (m : List (String × List String)) (k : String) :
    dictGetIds (ensureKey m k) k = dictGetIds m k := by
  unfold dictGetIds
  rw [lookup_ensureKey]
  rfl

theorem dictGetIds_appendAt_ensureKey (m : List (String × List String))
    (k v : String) :
    dictGetIds (appendAt (ensureKey m k) k v) k = dictGetIds m k ++ [v] := by
  unfold dictGetIds
  rw [lookup_appendAt, lookup_ensureKey]
  rfl

theorem findFreshId_fresh (m : List (String × List String)) (pfx : Option String)
    (draws : List String) (i : String) (h : findFreshId m pfx draws = some i) :
    id_exists m i = false := by
  induction draws with
  | nil => simp [findFreshId] at h
  | cons d ds ih =>
    by_cases hex : id_exists m (mkId pfx d) = true
    · simp only [findFreshId, hex, if_true] at h
      exact ih h
    · simp only [findFreshId, hex, if_false] at h
      cases h
      simpa using hex

/-- C3: `generate_id` returns an ID absent from every entity type's list at
call time (global cross-type freshness via `_id_exists`), and records it under
the requested entity type. -/
theorem generate_id_fresh_and_registered (r : IDRegistry) (t : String)
    (pfx : Option String) (draws : List String) (newId : String)
    (r' : IDRegistry) (h : generate_id r t pfx draws = some (newId, r')) :
    id_exists r.id_map newId = false ∧ newId ∈ dictGetIds r'.id_map t := by
  unfold generate_id at h
  cases hf : findFreshId r.id_map pfx draws with
  | none => rw [hf] at h; cases h
  | some i =>
    rw [hf] at h
    cases h
    refine ⟨findFreshId_fresh _ _ _ _ hf, ?_⟩
    rw [dictGetIds_appendAt_ensureKey]
    exact List.mem_append_right _ (List.mem_singleton.mpr rfl)

/-- Witness for C3 at a concrete registry: the first draw "abc" collides with
an existing WELL id, the second draw "xyz" is fresh and lands in SITE's list. -/
theorem generate_id_fresh_and_registered_witness :
    id_exists [("WELL", ["abc"])] "xyz" = false ∧
    "xyz" ∈ dictGetIds [("WELL", ["abc"]), ("SITE", ["xyz"])] "SITE" :=
  generate_id_fresh_and_registered ⟨[("WELL", ["abc"])], [], []⟩ "SITE" none
    ["abc", "xyz"] "xyz" ⟨[("WELL", ["abc"]), ("SITE", ["xyz"])], [], []⟩
    (by decide)

theorem register_entity_id_map (r : IDRegistry) (t i : String)
    (d : Option (List (String × String))) :
    dictGetIds (register_entity r t i d).id_map t =
      if (dictGetIds r.id_map t).contains i then dictGetIds r.id_map t
      else dictGetIds r.id_map t ++ [i] := by
  have he : dictGetIds (ensureKey r.id_map t) t = dictGetIds r.id_map t :=
    dictGetIds_ensureKey _ _
  unfold register_entity
  by_cases hc : (dictGetIds r.id_map t).contains i = true
  · simp only [he, hc, if_true]
  · simp only [he, hc, Bool.false_eq_true, if_false]
    rw [dictGetIds_appendAt_ensureKey]

theorem count_register_entity (r : IDRegistry) (t i : String)
    (d : Option (List (String × String)))
    (h : List.count i (dictGetIds r.id_map t) ≤ 1) :
    List.count i (dictGetIds (register_entity r t i d).id_map t) = 1 := by
  rw [register_entity_id_map]
  by_cases hc : (dictGetIds r.id_map t).contains i = true
  · rw [if_pos hc]
    have hmem : i ∈ dictGetIds r.id_map t := by
      simpa using hc
    have hpos : 0 < List.count i (dictGetIds r.id_map t) :=
      List.count_pos_iff.mpr hmem
    omega
  · rw [if_neg hc]
    have hmem : i ∉ dictGetIds r.id_map t := by
      simpa using hc
    rw [List.count_append]
    rw [List.count_eq_zero.mpr hmem]
    simp

theorem mem_register_entity (r : IDRegistry) (t i : String)
    (d : Option (List (String × String))) :
    i ∈ dictGetIds (register_entity r t i d).id_map t := by
  rw [register_entity_id_map]
  by_cases hc : (dictGetIds r.id_map t).contains i = true
  · rw [if_pos hc]
    simpa using hc
  · rw [if_neg hc]
    exact List.mem_append_right _ (List.mem_singleton.mpr rfl)

theorem register_entity_noop (s : IDRegistry) (t i : String)
    (d : Option (List (String × String)))
    (hmem : i ∈ dictGetIds s.id_map t) :
    (register_entity s t i d).id_map = s.id_map := by
  have hsome : (s.id_map.lookup t).isSome = true := by
    unfold dictGetIds at hmem
    cases h : s.id_map.lookup t with
    | none => rw [h] at hmem; simp at hmem
    | some v => simp
  have hens : ensureKey s.id_map t = s.id_map := by
    unfold ensureKey
    rw [hsome]
    rfl
  have hc : (dictGetIds s.id_map t).contains i = true := by
    simpa using hmem
  unfold register_entity
  simp only [hens, hc, if_true]

/-- C9: `register_entity` is idempotent on the ID map — a second registration
of the same (type, id) pair leaves the map untouched, and iterating the
registration any number of times leaves exactly one occurrence of the ID in
that type's list (starting from any state where it occurs at most once). -/
theorem register_entity_idempotent (r : IDRegistry) (t i : String)
    (d d' : Option (List (String × String))) (n : Nat) :
    (register_entity (register_entity r t i d) t i d').id_map =
      (register_entity r t i d).id_map ∧
    (List.count i (dictGetIds r.id_map t) ≤ 1 →
      List.count i
        (dictGetIds (((fun s => register_entity s t i d)^[n + 1]) r).id_map t) = 1) := by
  constructor
  · exact register_entity_noop _ t i d' (mem_register_entity r t i d)
  · intro h
    induction n generalizing r with
    | zero => simpa using count_register_entity r t i d h
    | succ k ih =>
      rw [Function.iterate_succ_apply]
      exact ih (register_entity r t i d) (count_register_entity r t i d h).le

/-- Witness for C9: registering "a" under WELL three times in an empty
registry leaves exactly one occurrence. -/
theorem register_entity_idempotent_witness :
    List.count "a"
      (dictGetIds (((fun s => register_entity s "WELL" "a" none)^[3])
        ⟨[], [], []⟩).id_map "WELL") = 1 :=
  (register_entity_idempotent ⟨[], [], []⟩ "WELL" "a" none none 2).2 (by decide)

/-! #### validate_references lemmas (C4) -/
theorem concatMap_eq_nil_iff {α β : Type} (f : α → List β) (l : List α) :
    concatMap f l = [] ↔ ∀ a ∈ l, f a = [] := by
  induction l with
  | nil => simp [concatMap]
  | cons a t ih => simp [concatMap, List.append_eq_nil, ih]

theorem concatMap_length {α β : Type} (f : α → List β) (l : List α) :
    (concatMap f l).length = (l.map (fun a => (f a).length)).sum := by
  induction l with
  | nil => rfl
  | cons a t ih => simp [concatMap, ih]

theorem length_concatMap_if {α : Type} (p : α → Bool) (msg : α → String)
    (l : List α) :
    (concatMap (fun a => if p a then [] else [msg a]) l).length =
      l.countP (fun a => !p a) := by
  induction l with
  | nil => rfl
  | cons a t ih =>
    simp only [concatMap, List.length_append, List.countP_cons, ih]
    cases hp : p a <;> simp [hp] <;> omega

theorem foldl_child_errors (idm : List (String × List String)) (ct : String)
    (cids : List String) (es : List String) :
    cids.foldl
      (fun es cid =>
        if (dictGetIds idm ct).contains cid then es
        else es ++ ["Referenced child entity " ++ ct ++ ":" ++ cid ++
          " does not exist"])
      es =
    es ++ concatMap
      (fun cid =>
        if (dictGetIds idm ct).contains cid then []
        else ["Referenced child entity " ++ ct ++ ":" ++ cid ++
          " does not exist"])
      cids := by
  induction cids generalizing es with
  | nil => simp [concatMap]
  | cons c t ih =>
    simp only [List.foldl_cons, concatMap]
    by_cases hc : (dictGetIds idm ct).contains c = true
    · rw [if_pos hc, if_pos hc, ih]
      simp
    · rw [if_neg hc, if_neg hc, ih]
      simp [List.append_assoc]

theorem validate_references_eq (r : IDRegistry) :
    validate_references r = concatMap (entryErrors r.id_map) r.relationship_map := by
  unfold validate_references
  suffices h : ∀ (entries : List ((String × String × String) × List String))
      (init : List String),
      entries.foldl
        (fun errors entry =>
          let errors :=
            if (dictGetIds r.id_map entry.1.1).contains entry.1.2.1 then errors
            else errors ++ ["Referenced parent entity " ++ entry.1.1 ++ ":" ++
              entry.1.2.1 ++ " does not exist"]
          entry.2.foldl
            (fun es cid =>
              if (dictGetIds r.id_map entry.1.2.2).contains cid then es
              else es ++ ["Referenced child entity " ++ entry.1.2.2 ++ ":" ++
                cid ++ " does not exist"])
            errors)
        init = init ++ concatMap (entryErrors r.id_map) entries by
    simpa using h r.relationship_map []
  intro entries
  induction entries with
  | nil => intro init; simp [concatMap]
  | cons e t ih =>
    intro init
    simp only [List.foldl_cons]
    rw [foldl_child_errors, ih, concatMap]
    by_cases hp : (dictGetIds r.id_map e.1.1).contains e.1.2.1 = true
    · rw [if_pos hp]
      simp only [entryErrors, if_pos hp]
      simp [List.append_assoc]
    · rw [if_neg hp]
      simp only [entryErrors, if_neg hp]
      simp [List.append_assoc]

theorem entryErrors_eq_nil_iff (idm : List (String × List String))
    (e : (String × String × String) × List String) :
    entryErrors idm e = [] ↔
      (e.1.2.1 ∈ dictGetIds idm e.1.1 ∧
       ∀ cid ∈ e.2, cid ∈ dictGetIds idm e.1.2.2) := by
  unfold entryErrors
  rw [List.append_eq_nil, concatMap_eq_nil_iff]
  constructor
  · rintro ⟨h1, h2⟩
    constructor
    · by_cases hp : (dictGetIds idm e.1.1).contains e.1.2.1 = true
      · simpa using hp
      · rw [if_neg hp] at h1; cases h1
    · intro cid hc
      have := h2 cid hc
      by_cases hcc : (dictGetIds idm e.1.2.2).contains cid = true
      · simpa using hcc
      · rw [if_neg hcc] at this; cases this
  · rintro ⟨h1, h2⟩
    constructor
    · have : (dictGetIds idm e.1.1).contains e.1.2.1 = true := by
        simpa using h1
      rw [if_pos this]
    · intro cid hc
      have : (dictGetIds idm e.1.2.2).contains cid = true := by
        simpa using h2 cid hc
      rw [if_pos this]

theorem entryErrors_length (idm : List (String × List String))
    (e : (String × String × String) × List String) :
    (entryErrors idm e).length =
      (if (dictGetIds idm e.1.1).contains e.1.2.1 then 0 else 1) +
      e.2.countP (fun cid => !(dictGetIds idm e.1.2.2).contains cid) := by
  unfold entryErrors
  rw [List.length_append, length_concatMap_if]
  by_cases hp : e.1.2.1 ∈ dictGetIds idm e.1.1
  · simp [hp]
  · simp [hp]

/-- C4: `validate_references` returns `[]` iff every registered relationship
resolves (parent in its type's list, every child in its type's list), and in
general returns exactly one error string per broken endpoint occurrence
(aggregated over all relationships, never stopping at the first failure). -/
theorem validate_references_empty_iff (r : IDRegistry) :
    (validate_references r = [] ↔
      ∀ e ∈ r.relationship_map,
        e.1.2.1 ∈ dictGetIds r.id_map e.1.1 ∧
        ∀ cid ∈ e.2, cid ∈ dictGetIds r.id_map e.1.2.2) ∧
    (validate_references r).length =
      (r.relationship_map.map (fun e =>
        (if (dictGetIds r.id_map e.1.1).contains e.1.2.1 then 0 else 1) +
        e.2.countP (fun cid => !(dictGetIds r.id_map e.1.2.2).contains cid))).sum := by
  constructor
  · rw [validate_references_eq, concatMap_eq_nil_iff]
    constructor
    · intro h e he
      exact (entryErrors_eq_nil_iff r.id_map e).mp (h e he)
    · intro h e he
      exact (entryErrors_eq_nil_iff r.id_map e).mpr (h e he)
  · rw [validate_references_eq, concatMap_length]
    refine congrArg List.sum ?_
    exact List.map_congr_left fun e _ => entryErrors_length r.id_map e

/-- C6: a pressure-profile row without a supplied `emw` gets
`pressure / (0.052 * depth)` for positive depth (and this coincides with the
shared helper `calculate_emw`), `0.0` at depth `0`; at the spec's example
`pressure=1000, depth=5000` the value is `1000 / (0.052 * 5000)`. -/
theorem emw_derivation (p d : ℚ) :
    (0 < d → poreEmwValue none p d = p / (0.052 * d) ∧
      poreEmwValue none p d = calculate_emw p d) ∧
    poreEmwValue none p 0 = 0 ∧ calculate_emw p 0 = 0 ∧
    poreEmwValue none 1000 5000 = 1000 / (0.052 * 5000) := by
  refine ⟨fun hd => ⟨?_, ?_⟩, ?_, ?_, ?_⟩
  · simp [poreEmwValue, hd]
  · simp [poreEmwValue, calculate_emw, hd, not_le.mpr hd]
  · simp [poreEmwValue]
  · simp [calculate_emw]
  · norm_num [poreEmwValue]

/-- Witness for C6 at the spec's example row. -/
theorem emw_derivation_witness :
    (0 : ℚ) < 5000 ∧ poreEmwValue none 1000 5000 = 1000 / (0.052 * 5000) :=
  ⟨by norm_num, ((emw_derivation 1000 5000).1 (by norm_num)).1⟩

theorem insertOverwrite_fresh (m : List (String × String)) (k v : String)
    (h : m.lookup k = none) : insertOverwrite m k v = m ++ [(k, v)] := by
  unfold insertOverwrite
  simp [h]

theorem lookup_snoc_ne {β : Type} (m : List (String × β)) (k k' : String)
    (v : β) (hne : k' ≠ k) (h : m.lookup k' = none) :
    (m ++ [(k, v)]).lookup k' = none := by
  rw [lookup_append_right m _ k' h]
  have h2 : (k' == k) = false := beq_eq_false_iff_ne.mpr hne
  simp [List.lookup, h2]

theorem buildMaterialMapsAux_fst (gens : Nat → String) (mats : List Material) :
    ∀ (k : Nat) (nameMap gradeMap : List (String × String)),
    (∀ mat ∈ mats, ∀ n, mat.materialName = some n → nameMap.lookup n = none) →
    (mats.filterMap Material.materialName).Nodup →
    (buildMaterialMapsAux gens k nameMap gradeMap mats).1 =
      nameMap ++ namePairs gens k mats := by
  induction mats with
  | nil => intro k nm gm _ _; simp [buildMaterialMapsAux, namePairs]
  | cons m ms ih =>
    intro k nm gm hfresh hnodup
    cases hmi : m.materialId with
    | some i =>
      cases hmn : m.materialName with
      | none =>
        simp only [buildMaterialMapsAux, namePairs, hmi, hmn]
        refine ih k nm _ (fun mat hm n hn => hfresh mat (List.mem_cons_of_mem _ hm) n hn) ?_
        simpa [List.filterMap_cons, hmn] using hnodup
      | some n =>
        have hlook : nm.lookup n = none := hfresh m (List.mem_cons_self _ _) n hmn
        have hrest : (ms.filterMap Material.materialName).Nodup := by
          have := hnodup
          rw [List.filterMap_cons, hmn] at this
          exact this.of_cons
        have hnotin : n ∉ ms.filterMap Material.materialName := by
          have := hnodup
          rw [List.filterMap_cons, hmn] at this
          exact (List.nodup_cons.mp this).1
        simp only [buildMaterialMapsAux, namePairs, hmi, hmn]
        rw [insertOverwrite_fresh nm n i hlook]
        rw [ih k (nm ++ [(n, i)]) _ ?_ hrest]
        · simp
        · intro mat hm n' hn'
          have hne : n' ≠ n := by
            intro he
            subst he
            exact hnotin (List.mem_filterMap.mpr ⟨mat, hm, hn'⟩)
          exact lookup_snoc_ne nm n n' i hne
            (hfresh mat (List.mem_cons_of_mem _ hm) n' hn')
    | none =>
      cases hmn : m.materialName with
      | none =>
        simp only [buildMaterialMapsAux, namePairs, hmi, hmn]
        refine ih (k + 1) nm _ (fun mat hm n hn => hfresh mat (List.mem_cons_of_mem _ hm) n hn) ?_
        simpa [List.filterMap_cons, hmn] using hnodup
      | some n =>
        have hlook : nm.lookup n = none := hfresh m (List.mem_cons_self _ _) n hmn
        have hrest : (ms.filterMap Material.materialName).Nodup := by
          have := hnodup
          rw [List.filterMap_cons, hmn] at this
          exact this.of_cons
        have hnotin : n ∉ ms.filterMap Material.materialName := by
          have := hnodup
          rw [List.filterMap_cons, hmn] at this
          exact (List.nodup_cons.mp this).1
        simp only [buildMaterialMapsAux, namePairs, hmi, hmn]
        rw [insertOverwrite_fresh nm n (gens k) hlook]
        rw [ih (k + 1) (nm ++ [(n, gens k)]) _ ?_ hrest]
        · simp
        · intro mat hm n' hn'
          have hne : n' ≠ n := by
            intro he
            subst he
            exact hnotin (List.mem_filterMap.mpr ⟨mat, hm, hn'⟩)
          exact lookup_snoc_ne nm n n' (gens k) hne
            (hfresh mat (List.mem_cons_of_mem _ hm) n' hn')

theorem buildMaterialMapsAux_snd (gens : Nat → String) (mats : List Material) :
    ∀ (k : Nat) (nameMap gradeMap : List (String × String)),
    (∀ mat ∈ mats, ∀ g, mat.grade = some g → gradeMap.lookup g = none) →
    (mats.filterMap Material.grade).Nodup →
    (buildMaterialMapsAux gens k nameMap gradeMap mats).2 =
      gradeMap ++ gradePairs gens k mats := by
  induction mats with
  | nil => intro k nm gm _ _; simp [buildMaterialMapsAux, gradePairs]
  | cons m ms ih =>
    intro k nm gm hfresh hnodup
    cases hmi : m.materialId with
    | some i =>
      cases hmg : m.grade with
      | none =>
        simp only [buildMaterialMapsAux, gradePairs, hmi, hmg]
        refine ih k _ gm (fun mat hm g hg => hfresh mat (List.mem_cons_of_mem _ hm) g hg) ?_
        simpa [List.filterMap_cons, hmg] using hnodup
      | some g =>
        have hlook : gm.lookup g = none := hfresh m (List.mem_cons_self _ _) g hmg
        have hrest : (ms.filterMap Material.grade).Nodup := by
          have := hnodup
          rw [List.filterMap_cons, hmg] at this
          exact this.of_cons
        have hnotin : g ∉ ms.filterMap Material.grade := by
          have := hnodup
          rw [List.filterMap_cons, hmg] at this
          exact (List.nodup_cons.mp this).1
        simp only [buildMaterialMapsAux, gradePairs, hmi, hmg]
        rw [insertOverwrite_fresh gm g i hlook]
        rw [ih k _ (gm ++ [(g, i)]) ?_ hrest]
        · simp
        · intro mat hm g' hg'
          have hne : g' ≠ g := by
            intro he
            subst he
            exact hnotin (List.mem_filterMap.mpr ⟨mat, hm, hg'⟩)
          exact lookup_snoc_ne gm g g' i hne
            (hfresh mat (List.mem_cons_of_mem _ hm) g' hg')
    | none =>
      cases hmg : m.grade with
      | none =>
        simp only [buildMaterialMapsAux, gradePairs, hmi, hmg]
        refine ih (k + 1) _ gm (fun mat hm g hg => hfresh mat (List.mem_cons_of_mem _ hm) g hg) ?_
        simpa [List.filterMap_cons, hmg] using hnodup
      | some g =>
        have hlook : gm.lookup g = none := hfresh m (List.mem_cons_self _ _) g hmg
        have hrest : (ms.filterMap Material.grade).Nodup := by
          have := hnodup
          rw [List.filterMap_cons, hmg] at this
          exact this.of_cons
        have hnotin : g ∉ ms.filterMap Material.grade := by
          have := hnodup
          rw [List.filterMap_cons, hmg] at this
          exact (List.nodup_cons.mp this).1
        simp only [buildMaterialMapsAux, gradePairs, hmi, hmg]
        rw [insertOverwrite_fresh gm g (gens k) hlook]
        rw [ih (k + 1) _ (gm ++ [(g, gens k)]) ?_ hrest]
        · simp
        · intro mat hm g' hg'
          have hne : g' ≠ g := by
            intro he
            subst he
            exact hnotin (List.mem_filterMap.mpr ⟨mat, hm, hg'⟩)
          exact lookup_snoc_ne gm g g' (gens k) hne
            (hfresh mat (List.mem_cons_of_mem _ hm) g' hg')

theorem namePairs_lookup (gens : Nat → String) (mats : List Material) :
    ∀ (k : Nat) (n : String),
    (namePairs gens k mats).lookup n =
      ((assignMaterialIds gens k mats).find?
        (fun p => p.1.materialName == some n)).map Prod.snd := by
  induction mats with
  | nil => intro k n; rfl
  | cons m ms ih =>
    intro k n
    cases hmi : m.materialId with
    | some i =>
      cases hmn : m.materialName with
      | none =>
        simp only [namePairs, assignMaterialIds, hmi, hmn, List.find?]
        exact ih k n
      | some n' =>
        by_cases hnn : n = n'
        · subst hnn
          simp [namePairs, assignMaterialIds, hmi, hmn, List.find?, List.lookup]
        · have h1 : (n == n') = false := beq_eq_false_iff_ne.mpr hnn
          have h2 : (n' == n) = false :=
            beq_eq_false_iff_ne.mpr fun he => hnn he.symm
          simp only [namePairs, assignMaterialIds, hmi, hmn, List.find?,
            List.lookup, h1]
          have h3 : (some n' == some n) = false := by
            show (n' == n) = false
            exact h2
          rw [h3]
          exact ih k n
    | none =>
      cases hmn : m.materialName with
      | none =>
        simp only [namePairs, assignMaterialIds, hmi, hmn, List.find?]
        exact ih (k + 1) n
      | some n' =>
        by_cases hnn : n = n'
        · subst hnn
          simp [namePairs, assignMaterialIds, hmi, hmn, List.find?, List.lookup]
        · have h1 : (n == n') = false := beq_eq_false_iff_ne.mpr hnn
          have h2 : (n' == n) = false :=
            beq_eq_false_iff_ne.mpr fun he => hnn he.symm
          simp only [namePairs, assignMaterialIds, hmi, hmn, List.find?,
            List.lookup, h1]
          have h3 : (some n' == some n) = false := by
            show (n' == n) = false
            exact h2
          rw [h3]
          exact ih (k + 1) n

theorem gradePairs_lookup (gens : Nat → String) (mats : List Material) :
    ∀ (k : Nat) (g : String),
    (gradePairs gens k mats).lookup g =
      ((assignMaterialIds gens k mats).find?
        (fun p => p.1.grade == some g)).map Prod.snd := by
  induction mats with
  | nil => intro k g; rfl
  | cons m ms ih =>
    intro k g
    cases hmi : m.materialId with
    | some i =>
      cases hmg : m.grade with
      | none =>
        simp only [gradePairs, assignMaterialIds, hmi, hmg, List.find?]
        exact ih k g
      | some g' =>
        by_cases hgg : g = g'
        · subst hgg
          simp [gradePairs, assignMaterialIds, hmi, hmg, List.find?, List.lookup]
        · have h1 : (g == g') = false := beq_eq_false_iff_ne.mpr hgg
          have h2 : (g' == g) = false :=
            beq_eq_false_iff_ne.mpr fun he => hgg he.symm
          simp only [gradePairs, assignMaterialIds, hmi, hmg, List.find?,
            List.lookup, h1]
          have h3 : (some g' == some g) = false := by
            show (g' == g) = false
            exact h2
          rw [h3]
          exact ih k g
    | none =>
      cases hmg : m.grade with
      | none =>
        simp only [gradePairs, assignMaterialIds, hmi, hmg, List.find?]
        exact ih (k + 1) g
      | some g' =>
        by_cases hgg : g = g'
        · subst hgg
          simp [gradePairs, assignMaterialIds, hmi, hmg, List.find?, List.lookup]
        · have h1 : (g == g') = false := beq_eq_false_iff_ne.mpr hgg
          have h2 : (g' == g) = false :=
            beq_eq_false_iff_ne.mpr fun he => hgg he.symm
          simp only [gradePairs, assignMaterialIds, hmi, hmg, List.find?,
            List.lookup, h1]
          have h3 : (some g' == some g) = false := by
            show (g' == g) = false
            exact h2
          rw [h3]
          exact ih (k + 1) g

theorem namePairs_head (gens : Nat → String) (mats : List Material) :
    ∀ (k : Nat),
    ((namePairs gens k mats).head?).map Prod.snd =
      ((assignMaterialIds gens k mats).find?
        (fun p => p.1.materialName.isSome)).map Prod.snd := by
  induction mats with
  | nil => intro k; rfl
  | cons m ms ih =>
    intro k
    cases hmi : m.materialId with
    | some i =>
      cases hmn : m.materialName with
      | none =>
        simp only [namePairs, assignMaterialIds, hmi, hmn, List.find?,
          Option.isSome_none]
        exact ih k
      | some n' =>
        simp [namePairs, assignMaterialIds, hmi, hmn, List.find?]
    | none =>
      cases hmn : m.materialName with
      | none =>
        simp only [namePairs, assignMaterialIds, hmi, hmn, List.find?,
          Option.isSome_none]
        exact ih (k + 1)
      | some n' =>
        simp [namePairs, assignMaterialIds, hmi, hmn, List.find?]

theorem match_snd_getD {β : Type} (x : Option (β × String)) :
    (match x with | some p => p.2 | none => "") = (x.map Prod.snd).getD "" := by
  cases x <;> rfl

/-- C1 of the material claim, amended: MATERIAL_ID resolution precedence for a
component, stated against the payload's materials list (with distinct names
and distinct grades so the dict lookups are unambiguous): explicit
`materialId` wins; else the ID of the material whose `materialName` matches;
else the ID of the material whose `grade` matches; else the ID of the *first
material that has a `materialName`* (materials without a name never feed the
fallback dict); else the empty string. -/
theorem resolve_material_precedence (gens : Nat → String) (mats : List Material)
    (c : CasingComponent)
    (hn : (mats.filterMap Material.materialName).Nodup)
    (hg : (mats.filterMap Material.grade).Nodup) :
    resolveForComponent gens mats c =
      c.materialId.getD
        ((c.materialName.bind (fun n =>
            ((assignMaterialIds gens 0 mats).find?
              (fun p => p.1.materialName == some n)).map Prod.snd)).getD
          ((c.grade.bind (fun g =>
              ((assignMaterialIds gens 0 mats).find?
                (fun p => p.1.grade == some g)).map Prod.snd)).getD
            ((((assignMaterialIds gens 0 mats).find?
                (fun p => p.1.materialName.isSome)).map Prod.snd).getD ""))) := by
  have h1 : (buildMaterialMaps gens mats).1 = namePairs gens 0 mats :=
    buildMaterialMapsAux_fst gens mats 0 [] []
      (fun mat _ n _ => rfl) hn
  have h2 : (buildMaterialMaps gens mats).2 = gradePairs gens 0 mats :=
    buildMaterialMapsAux_snd gens mats 0 [] []
      (fun mat _ g _ => rfl) hg
  unfold resolveForComponent resolveMaterialId
  rw [h1, h2]
  cases c.materialId with
  | some i => rfl
  | none =>
    simp only [namePairs_lookup gens mats 0, gradePairs_lookup gens mats 0,
      Option.getD_none]
    cases hb : c.materialName.bind (fun n =>
        ((assignMaterialIds gens 0 mats).find?
          (fun p => p.1.materialName == some n)).map Prod.snd) with
    | some i => rfl
    | none =>
      simp only [Option.getD_none]
      cases hb2 : c.grade.bind (fun g =>
          ((assignMaterialIds gens 0 mats).find?
            (fun p => p.1.grade == some g)).map Prod.snd) with
      | some i => rfl
      | none =>
        simp only [Option.getD_none]
        cases hh : (namePairs gens 0 mats).head? with
        | some p =>
          have hnp := namePairs_head gens mats 0
          rw [hh] at hnp
          rw [← hnp]
          rfl
        | none =>
          have hnp := namePairs_head gens mats 0
          rw [hh] at hnp
          rw [← hnp]
          rfl

/-- Counterexample for C2 as stated: one material is defined (MATERIAL_ID
"M1", no name, no grade), the component supplies nothing, yet the resolved
MATERIAL_ID is the empty string, not the first defined material's "M1". -/
theorem resolve_material_fallback_counterexample :
    resolveForComponent (fun _ => "G0")
      [{ materialId := some "M1", materialName := none, grade := none }]
      { materialId := none, materialName := none, grade := none } = "" ∧
    ("" : String) ≠ "M1" := by
  constructor
  · rfl
  · decide

/-! #### Element / splice lemmas -/
theorem lookup_append {β : Type} (m l : List (String × β)) (k : String) :
    (m ++ l).lookup k =
      match m.lookup k with
      | some v => some v
      | none => l.lookup k := by
  induction m with
  | nil => rfl
  | cons p t ih =>
    obtain ⟨a, b⟩ := p
    by_cases hk : k = a
    · subst hk
      simp [List.lookup]
    · have h2 : (k == a) = false := beq_eq_false_iff_ne.mpr hk
      simp only [List.cons_append, List.lookup, h2]
      exact ih

theorem lookup_overwrite_self (m : List (String × String)) (k v : String) :
    (m.map (fun p => (p.1, if p.1 == k then v else p.2))).lookup k =
      (m.lookup k).map (fun _ => v) := by
  induction m with
  | nil => rfl
  | cons p t ih =>
    obtain ⟨a, b⟩ := p
    by_cases hk : k = a
    · subst hk
      simp [List.lookup]
    · have h2 : (k == a) = false := beq_eq_false_iff_ne.mpr hk
      simp only [List.map_cons, List.lookup, h2]
      exact ih

theorem lookup_overwrite_ne (m : List (String × String)) (k v a : String)
    (h : a ≠ k) :
    (m.map (fun p => (p.1, if p.1 == k then v else p.2))).lookup a =
      m.lookup a := by
  induction m with
  | nil => rfl
  | cons p t ih =>
    obtain ⟨c, b⟩ := p
    by_cases hac : a = c
    · subst hac
      have hck : (a == k) = false := beq_eq_false_iff_ne.mpr h
      simp [List.lookup, hck]
    · have hac2 : (a == c) = false := beq_eq_false_iff_ne.mpr hac
      simp only [List.map_cons, List.lookup, hac2]
      exact ih

theorem getAttr_setAttr_self (e : XMLElem) (k v : String) :
    getAttr (setAttr e k v) k = some v := by
  unfold getAttr setAttr
  by_cases hs : (e.attrs.lookup k).isSome = true
  · simp only [hs, if_true]
    rw [lookup_overwrite_self]
    obtain ⟨w, hw⟩ := Option.isSome_iff_exists.mp hs
    simp [hw]
  · simp only [hs, Bool.false_eq_true, if_false]
    rw [lookup_append]
    rw [Option.not_isSome_iff_eq_none.mp hs]
    simp [List.lookup]

theorem getAttr_setAttr_ne (e : XMLElem) (k v a : String) (h : a ≠ k) :
    getAttr (setAttr e k v) a = getAttr e a := by
  unfold getAttr setAttr
  by_cases hs : (e.attrs.lookup k).isSome = true
  · simp only [hs, if_true]
    exact lookup_overwrite_ne _ _ _ _ h
  · simp only [hs, Bool.false_eq_true, if_false]
    rw [lookup_append]
    cases hl : e.attrs.lookup a with
    | some w => rfl
    | none =>
      have h2 : (a == k) = false := beq_eq_false_iff_ne.mpr h
      simp [List.lookup, h2]

theorem tag_setAttr (e : XMLElem) (k v : String) :
    (setAttr e k v).tag = e.tag := by
  unfold setAttr
  split <;> rfl

theorem length_pyInsert {α : Type} (l : List α) (i : Nat) (x : α) :
    (pyInsert l i x).length = l.length + 1 := by
  simp only [pyInsert, List.length_append, List.length_take, List.length_cons,
    List.length_drop]
  omega

theorem take_pyInsert {α : Type} (l : List α) (i : Nat) (x : α)
    (h : i ≤ l.length) : (pyInsert l i x).take (i + 1) = l.take i ++ [x] := by
  unfold pyInsert
  have hx : l.take i ++ x :: l.drop i = (l.take i ++ [x]) ++ l.drop i := by
    simp
  rw [hx]
  refine List.take_left' ?_
  simp
  omega

theorem drop_pyInsert {α : Type} (l : List α) (i : Nat) (x : α)
    (h : i ≤ l.length) : (pyInsert l i x).drop (i + 1) = l.drop i := by
  unfold pyInsert
  have hx : l.take i ++ x :: l.drop i = (l.take i ++ [x]) ++ l.drop i := by
    simp
  rw [hx]
  refine List.drop_left' ?_
  simp
  omega

/-- The splice loop inserts the built elements as one contiguous block right
after position `pos - 1` (i.e. at `pos`), in build order. -/
theorem spliceLoop_eq {α : Type} (build : Nat → α → XMLElem) (pos : Nat)
    (rows : List α) :
    ∀ (i : Nat) (sib : List XMLElem), pos + i ≤ sib.length →
    spliceLoop build pos i sib rows =
      sib.take (pos + i) ++ buildFrom build i rows ++ sib.drop (pos + i) := by
  induction rows with
  | nil =>
    intro i sib h
    simp [spliceLoop, buildFrom]
  | cons x xs ih =>
    intro i sib h
    show spliceLoop build pos (i + 1) (pyInsert sib (pos + i) (build i x)) xs = _
    rw [ih (i + 1) (pyInsert sib (pos + i) (build i x))
      (by rw [length_pyInsert]; omega)]
    have h1 : pos + (i + 1) = (pos + i) + 1 := by omega
    rw [h1, take_pyInsert sib (pos + i) (build i x) h,
      drop_pyInsert sib (pos + i) (build i x) h]
    simp [buildFrom]

theorem findIdx?_lt_length_aux {α : Type} (p : α → Bool) :
    ∀ (l : List α) (s i : Nat), List.findIdx? p l s = some i →
      i < s + l.length := by
  intro l
  induction l with
  | nil => intro s i h; simp [List.findIdx?] at h
  | cons x t ih =>
    intro s i h
    rw [List.findIdx?_cons] at h
    by_cases hp : p x = true
    · simp only [hp, if_true] at h
      cases h
      simp
    · simp only [hp, Bool.false_eq_true, if_false] at h
      have := ih (s + 1) i h
      simp only [List.length_cons]
      omega

theorem findIdx?_lt_length {α : Type} (p : α → Bool) (l : List α) (i : Nat)
    (h : l.findIdx? p = some i) : i < l.length := by
  have := findIdx?_lt_length_aux p l 0 i h
  omega

theorem buildFrom_map {α β : Type} (build : Nat → α → XMLElem)
    (f : XMLElem → β) (g : α → β) (h : ∀ i p, f (build i p) = g p) :
    ∀ (i : Nat) (rows : List α), (buildFrom build i rows).map f = rows.map g := by
  intro i rows
  induction rows generalizing i with
  | nil => rfl
  | cons x xs ih => simp [buildFrom, h, ih]

/-! #### C10: template-mode attribute update -/
theorem applyAttrUpdate_spec (e : XMLElem) (attr_name attr_value now : String)
    (h1 : attr_name ≠ "CREATE_DATE") (h2 : attr_name ≠ "UPDATE_DATE")
    (h3 : attr_name ≠ "UPDATE_USER_ID") (h4 : attr_name ≠ "UPDATE_APP_ID") :
    getAttr (applyAttrUpdate e attr_name attr_value now) attr_name =
        some attr_value ∧
    getAttr (applyAttrUpdate e attr_name attr_value now) "UPDATE_DATE" =
        some (tsLit now) ∧
    getAttr (applyAttrUpdate e attr_name attr_value now) "UPDATE_USER_ID" =
        some "API_USER" ∧
    getAttr (applyAttrUpdate e attr_name attr_value now) "UPDATE_APP_ID" =
        some "XML_API" ∧
    (applyAttrUpdate e attr_name attr_value now).tag = e.tag ∧
    ∀ a, a ≠ attr_name → a ≠ "UPDATE_DATE" → a ≠ "UPDATE_USER_ID" →
      a ≠ "UPDATE_APP_ID" →
      getAttr (applyAttrUpdate e attr_name attr_value now) a = getAttr e a := by
  have hb1 : (attr_name == "CREATE_DATE") = false := beq_eq_false_iff_ne.mpr h1
  have hb2 : (attr_name == "UPDATE_DATE") = false := beq_eq_false_iff_ne.mpr h2
  unfold applyAttrUpdate
  simp only [hb1, hb2, Bool.or_self, Bool.false_eq_true, if_false]
  refine ⟨?_, ?_, ?_, ?_, ?_, ?_⟩
  · rw [getAttr_setAttr_ne _ _ _ _ h4, getAttr_setAttr_ne _ _ _ _ h3,
      getAttr_setAttr_ne _ _ _ _ h2, getAttr_setAttr_self]
  · rw [getAttr_setAttr_ne _ _ _ _ (by decide), getAttr_setAttr_ne _ _ _ _ (by decide),
      getAttr_setAttr_self]
  · rw [getAttr_setAttr_ne _ _ _ _ (by decide), getAttr_setAttr_self]
  · rw [getAttr_setAttr_self]
  · rw [tag_setAttr, tag_setAttr, tag_setAttr, tag_setAttr]
  · intro a ha1 ha2 ha3 ha4
    rw [getAttr_setAttr_ne _ _ _ _ ha4, getAttr_setAttr_ne _ _ _ _ ha3,
      getAttr_setAttr_ne _ _ _ _ ha2, getAttr_setAttr_ne _ _ _ _ ha1]

/-- C10 amended: for any `attr_name` outside
{CREATE_DATE, UPDATE_DATE, UPDATE_USER_ID, UPDATE_APP_ID},
`update_element_attribute` stamps every matching element with
`attr_name = value`, a fresh `UPDATE_DATE` timestamp literal,
`UPDATE_USER_ID = 'API_USER'` and `UPDATE_APP_ID = 'XML_API'`, leaves every
other attribute and every non-matching element byte-identical, and returns
True exactly when at least one element matched.  (When `attr_name` is
`UPDATE_USER_ID` or `UPDATE_APP_ID` the audit stamp overwrites the requested
value — see the counterexample.) -/
theorem update_element_attribute_spec (doc : List XMLElem)
    (tag_name id_attr id_value attr_name attr_value now : String)
    (h1 : attr_name ≠ "CREATE_DATE") (h2 : attr_name ≠ "UPDATE_DATE")
    (h3 : attr_name ≠ "UPDATE_USER_ID") (h4 : attr_name ≠ "UPDATE_APP_ID") :
    ((update_element_attribute doc tag_name id_attr id_value attr_name
        attr_value now).2 =
      doc.any (fun e => elemMatches e tag_name id_attr id_value)) ∧
    ((update_element_attribute doc tag_name id_attr id_value attr_name
        attr_value now).1.length = doc.length) ∧
    (doc.any (fun e => elemMatches e tag_name id_attr id_value) = false →
      (update_element_attribute doc tag_name id_attr id_value attr_name
        attr_value now).1 = doc) ∧
    ∀ (i : Nat) (e : XMLElem), doc[i]? = some e →
      (elemMatches e tag_name id_attr id_value = false →
        (update_element_attribute doc tag_name id_attr id_value attr_name
          attr_value now).1[i]? = some e) ∧
      (elemMatches e tag_name id_attr id_value = true →
        ∃ e', (update_element_attribute doc tag_name id_attr id_value attr_name
            attr_value now).1[i]? = some e' ∧
          getAttr e' attr_name = some attr_value ∧
          getAttr e' "UPDATE_DATE" = some (tsLit now) ∧
          getAttr e' "UPDATE_USER_ID" = some "API_USER" ∧
          getAttr e' "UPDATE_APP_ID" = some "XML_API" ∧
          e'.tag = e.tag ∧
          ∀ a, a ≠ attr_name → a ≠ "UPDATE_DATE" → a ≠ "UPDATE_USER_ID" →
            a ≠ "UPDATE_APP_ID" → getAttr e' a = getAttr e a) := by
  unfold update_element_attribute
  by_cases hany : doc.any (fun e => elemMatches e tag_name id_attr id_value) = true
  · simp only [hany, if_true]
    refine ⟨trivial, by simp, fun hfalse => Bool.noConfusion hfalse, ?_⟩
    intro (i : Nat) (e : XMLElem) he
    constructor
    · intro hm
      rw [List.getElem?_map, he]
      simp [hm]
    · intro hm
      refine ⟨applyAttrUpdate e attr_name attr_value now, ?_, ?_⟩
      · rw [List.getElem?_map, he]
        simp [hm]
      · obtain ⟨p1, p2, p3, p4, p5, p6⟩ :=
          applyAttrUpdate_spec e attr_name attr_value now h1 h2 h3 h4
        exact ⟨p1, p2, p3, p4, p5, p6⟩
  · have hfalse : doc.any (fun e => elemMatches e tag_name id_attr id_value) = false :=
      by simpa using hany
    simp only [hfalse, Bool.false_eq_true, if_false]
    refine ⟨trivial, trivial, fun _ => trivial, ?_⟩
    intro (i : Nat) (e : XMLElem) he
    constructor
    · intro _; exact he
    · intro hm
      have : e ∈ doc := List.getElem?_mem he
      have := List.any_eq_false.mp hfalse e this
      rw [hm] at this
      cases this rfl

/-- Counterexample for C10 as stated: with `attr_name = 'UPDATE_USER_ID'` and
value "X", the audit stamp overwrites the requested value with 'API_USER'. -/
theorem update_element_attribute_counterexample :
    (update_element_attribute [⟨"CD_SITE", [("SITE_ID", "S1")]⟩] "CD_SITE"
        "SITE_ID" "S1" "UPDATE_USER_ID" "X" "2025-01-01 00:00:00").2 = true ∧
    getAttr ((update_element_attribute [⟨"CD_SITE", [("SITE_ID", "S1")]⟩]
        "CD_SITE" "SITE_ID" "S1" "UPDATE_USER_ID" "X"
        "2025-01-01 00:00:00").1.headD ⟨"", []⟩) "UPDATE_USER_ID" =
      some "API_USER" ∧
    ("API_USER" : String) ≠ "X" := by
  refine ⟨rfl, rfl, by decide⟩

/-- Witness for the amended C10 theorem at a concrete two-element document. -/
theorem update_element_attribute_spec_witness :
    (update_element_attribute
        [⟨"CD_SITE", [("SITE_ID", "S1"), ("SITE_NAME", "old")]⟩,
         ⟨"CD_WELL", [("WELL_ID", "W1")]⟩]
        "CD_SITE" "SITE_ID" "S1" "SITE_NAME" "new" "2025-01-01 00:00:00").2 =
      true := by
  have h := (update_element_attribute_spec
    [⟨"CD_SITE", [("SITE_ID", "S1"), ("SITE_NAME", "old")]⟩,
     ⟨"CD_WELL", [("WELL_ID", "W1")]⟩]
    "CD_SITE" "SITE_ID" "S1" "SITE_NAME" "new" "2025-01-01 00:00:00"
    (by decide) (by decide) (by decide) (by decide)).1
  rw [h]
  rfl

/-! #### C7: preamble of the serialized output -/
/-- C7 (code bug): on a generated one-element document, `xml_to_string`
installs the vendor preamble (`standalone="no"` + DataServices PI), but the
final `fix_xml_structure` re-serializes the tree and prepends
`<?xml version="1.0" encoding="utf-8"?>` instead, so the emitted first line
differs from the vendor preamble the rest of the codebase (and the spec)
requires.  The no-duplicate part of the claim does hold: the output contains
exactly one declaration line and one DataServices line. -/
theorem preamble_mismatch :
    (generate_xml_serialization [⟨"CD_SITE", [("SITE_ID", "S1")]⟩]).head? =
      some encDeclLine ∧
    (generate_xml_serialization [⟨"CD_SITE", [("SITE_ID", "S1")]⟩])[1]? =
      some dataServicesLine ∧
    (xml_to_string [⟨"CD_SITE", [("SITE_ID", "S1")]⟩]).head? =
      some vendorDeclLine ∧
    encDeclLine ≠ vendorDeclLine ∧
    ((generate_xml_serialization [⟨"CD_SITE", [("SITE_ID", "S1")]⟩]).filter
      (fun l => strStarts l "<?xml")).length = 1 ∧
    ((generate_xml_serialization [⟨"CD_SITE", [("SITE_ID", "S1")]⟩]).filter
      (fun l => strStarts l "<?DataServices")).length = 1 := by
  refine ⟨rfl, rfl, rfl, by decide, rfl, rfl⟩

/-! #### C5: depth-zero folding -/
theorem buildFrom_length {α : Type} (build : Nat → α → XMLElem) :
    ∀ (i : Nat) (rows : List α), (buildFrom build i rows).length = rows.length := by
  intro i rows
  induction rows generalizing i with
  | nil => rfl
  | cons x xs ih => simp [buildFrom, ih]

theorem mem_buildFrom {α : Type} (build : Nat → α → XMLElem) :
    ∀ (i : Nat) (rows : List α) (e : XMLElem), e ∈ buildFrom build i rows →
      ∃ j p, p ∈ rows ∧ e = build j p := by
  intro i rows
  induction rows generalizing i with
  | nil => intro e h; cases h
  | cons x xs ih =>
    intro e h
    rw [buildFrom] at h
    rcases List.mem_cons.mp h with h1 | h2
    · exact ⟨i, x, List.mem_cons_self _ _, h1⟩
    · obtain ⟨j, p, hp, he⟩ := ih (i + 1) e h2
      exact ⟨j, p, List.mem_cons_of_mem _ hp, he⟩

theorem formationSurfaceTemp_eq_find (rows : List TempRowF) :
    formationSurfaceTemp rows =
      (rows.find? (fun p => p.depth == 0)).map TempRowF.temperature := by
  induction rows with
  | nil => rfl
  | cons p ps ih =>
    rw [formationSurfaceTemp, List.find?]
    by_cases hd : (p.depth == 0) = true
    · simp [hd]
    · have hd' : (p.depth == 0) = false := by simpa using hd
      simp only [hd', Bool.false_eq_true, if_false]
      exact ih

/-- C5 amended: the *first* depth-0 temperature row's value (and only that
row's) feeds SURFACE_AMBIENT_TEMP; depth-0 rows never yield a
CD_TEMP_GRADIENT element; every depth>0 row yields exactly one element, in
both the full-generation handler and the template handler. -/
theorem depth_zero_folding (temp_group_id : String) (gens : Nat → String)
    (well_ids wellbore_ids : List String) (rows : List TempRowF)
    (profiles : List TempRow) :
    formationSurfaceTemp rows =
      (rows.find? (fun p => p.depth == 0)).map TempRowF.temperature ∧
    (formationTempPoints temp_group_id gens well_ids wellbore_ids rows).length =
      rows.countP (fun p => decide (0 < p.depth)) ∧
    (∀ e ∈ formationTempPoints temp_group_id gens well_ids wellbore_ids rows,
      ∃ p, p ∈ rows ∧ 0 < p.depth ∧
        getAttr e "TVD" = some (ratStr p.depth) ∧
        getAttr e "TEMPERATURE" = some (ratStr p.temperature)) ∧
    (tempSegmentRows profiles).length =
      profiles.countP (fun p => decide (0 < rowDepth p)) ∧
    (∀ p ∈ tempSegmentRows profiles, 0 < rowDepth p) := by
  refine ⟨formationSurfaceTemp_eq_find rows, ?_, ?_, ?_, ?_⟩
  · rw [formationTempPoints, buildFrom_length, List.countP_eq_length_filter]
  · intro e he
    obtain ⟨j, p, hp, hep⟩ := mem_buildFrom _ _ _ e he
    have hmem := List.mem_filter.mp hp
    refine ⟨p, hmem.1, by simpa using hmem.2, ?_, ?_⟩
    · rw [hep]; rfl
    · rw [hep]; rfl
  · rw [tempSegmentRows, (pySortDesc_perm rowDepth _).length_eq,
      List.countP_eq_length_filter]
  · intro p hp
    have := (pySortDesc_perm rowDepth
      (profiles.filter (fun p => decide (0 < rowDepth p)))).mem_iff.mp hp
    simpa using (List.mem_filter.mp this).2

/-- Counterexample for C5 as stated: with two depth-0 rows (70 then 80), the
second row's temperature 80 is neither written to SURFACE_AMBIENT_TEMP
(which gets 70) nor emitted as a point element. -/
theorem depth_zero_folding_counterexample :
    formationSurfaceTemp [⟨0, 70⟩, ⟨0, 80⟩] = some 70 ∧
    formationTempPoints "G" (fun _ => "t") [] [] [⟨0, 70⟩, ⟨0, 80⟩] = [] ∧
    (70 : ℚ) ≠ 80 := by
  refine ⟨by decide, by decide, by norm_num⟩

/-- Witness for the amended C5 theorem: one depth-0 row and one depth-5000
row give exactly one point element. -/
theorem depth_zero_folding_witness :
    (formationTempPoints "G" (fun _ => "t") [] []
      [⟨0, 70⟩, ⟨5000, 150⟩]).length = 1 := by
  have h := (depth_zero_folding "G" (fun _ => "t") [] []
    [⟨0, 70⟩, ⟨5000, 150⟩] []).2.1
  rw [h]
  decide

/-! #### C1: deepest-first ordering -/
theorem spliceAfter_nil (sib : List XMLElem) (gi : Nat) :
    spliceAfter sib gi [] = sib := by
  simp [spliceAfter]

theorem spliceLoop_splice {α : Type} (build : Nat → α → XMLElem) (gi : Nat)
    (sib : List XMLElem) (rows : List α) (h : gi < sib.length) :
    spliceLoop build (gi + 1) 0 sib rows =
      spliceAfter sib gi (buildFrom build 0 rows) := by
  have hle : gi + 1 + 0 ≤ sib.length := by omega
  have := spliceLoop_eq build (gi + 1) rows 0 sib hle
  simpa [spliceAfter] using this

theorem length_setFirstMatching (tag idAttr idVal k v : String) :
    ∀ (l : List XMLElem),
    (setFirstMatching l tag idAttr idVal k v).length = l.length := by
  intro l
  induction l with
  | nil => rfl
  | cons e t ih =>
    rw [setFirstMatching]
    split
    · rfl
    · simp [ih]

theorem length_surveyHeaderNamed (sib1 : List XMLElem)
    (survey_header_id : String) (survey_stations : List SurveyRow) :
    (surveyHeaderNamed sib1 survey_header_id survey_stations).length =
      sib1.length := by
  rw [surveyHeaderNamed]
  cases survey_stations.head?.bind SurveyRow.name with
  | none => rfl
  | some nm => exact length_setFirstMatching _ _ _ _ _ sib1

theorem lookup_none_keys {β : Type} (a : String) :
    ∀ (l : List (String × β)), l.lookup a = none → ∀ p ∈ l, p.1 ≠ a := by
  intro l
  induction l with
  | nil => intro _ p hp; cases hp
  | cons q t ih =>
    intro h p hp
    obtain ⟨k, b⟩ := q
    cases hq : (a == k) with
    | true => simp [List.lookup, hq] at h
    | false =>
      simp only [List.lookup, hq] at h
      cases hp with
      | head => exact fun hk => (beq_eq_false_iff_ne.mp hq) hk.symm
      | tail _ hm => exact ih h p hm

theorem getAttr_foldl_ordered (attrs : List (String × String)) (a : String)
    (hnone : attrs.lookup a = none) :
    ∀ (ks : List String) (e : XMLElem),
    getAttr (ks.foldl (fun acc k =>
      match attrs.lookup k with
      | some v => setAttr acc k v
      | none => acc) e) a = getAttr e a := by
  intro ks
  induction ks with
  | nil => intro e; rfl
  | cons k t ih =>
    intro e
    rw [List.foldl_cons, ih]
    cases hl : attrs.lookup k with
    | none => simp [hl]
    | some v =>
      simp only [hl]
      refine getAttr_setAttr_ne e k v a ?_
      intro hak
      rw [← hak, hnone] at hl
      exact Option.noConfusion hl

theorem getAttr_foldl_extra (a : String) :
    ∀ (ps : List (String × String)), (∀ p ∈ ps, p.1 ≠ a) →
    ∀ (e : XMLElem),
    getAttr (ps.foldl (fun acc p =>
      if ATTRIBUTE_ORDER.contains p.1 then acc else setAttr acc p.1 p.2) e) a
      = getAttr e a := by
  intro ps
  induction ps with
  | nil => intro _ e; rfl
  | cons p t ih =>
    intro h e
    rw [List.foldl_cons, ih (fun q hq => h q (List.mem_cons_of_mem p hq))]
    split
    · rfl
    · exact getAttr_setAttr_ne e p.1 p.2 a
        (Ne.symm (h p (List.mem_cons_self p t)))

theorem getAttr_add_creation_info (e : XMLElem) (now a : String)
    (h1 : ([("CREATE_DATE", tsLit now), ("UPDATE_DATE", tsLit now),
      ("CREATE_USER_ID", "API_USER"), ("UPDATE_USER_ID", "API_USER"),
      ("CREATE_APP_ID", "XML_API"), ("UPDATE_APP_ID", "XML_API")] :
        List (String × String)).lookup a = none) :
    getAttr (add_creation_info e now) a = getAttr e a := by
  simp only [add_creation_info, set_attributes_ordered]
  rw [getAttr_foldl_extra a _ (lookup_none_keys a _ h1)]
  exact getAttr_foldl_ordered _ a h1 ATTRIBUTE_ORDER e

theorem getAttr_gen_dls_mdtop (group_id : Option String)
    (scenario_ids well_ids wellbore_ids : List String) (now : String)
    (o : DlsRowG) :
    getAttr (buildGenDlsOverrideElem group_id scenario_ids well_ids
      wellbore_ids now o) "MD_TOP" = o.topDepth.map ratStr := by
  rw [buildGenDlsOverrideElem, getAttr_add_creation_info _ _ _ (by rfl)]
  obtain ⟨oid, td, bd, ds⟩ := o
  cases oid <;> cases wellbore_ids <;> cases well_ids <;>
    cases scenario_ids <;> cases td <;> cases bd <;> cases ds <;> rfl

theorem getAttr_gen_survey_md (header_id : Option String) (s : SurveyRowG) :
    getAttr (buildGenSurveyStationElem header_id s) "MD" = s.md.map ratStr := by
  obtain ⟨sid, md, az, inc, tvd, ds⟩ := s
  cases sid <;> cases md <;> cases az <;> cases inc <;> cases tvd <;>
    cases ds <;> rfl

/-- C1 amended: every template-mode handler — temperature, pore pressure,
frac gradient, DLS overrides, survey stations — splices its built elements
as one contiguous run immediately after the group/header anchor, in stably
sorted deepest-first order (descending depth, top depth, or MD); the
full-generation handlers do not sort: `update_formation_inputs` emits its
temperature, pore-pressure and frac-gradient points, and the
generation-path DLS and survey handlers emit their overrides and stations,
one element per row in payload input order. -/
theorem deepest_first_ordering (profiles : List TempRow)
    (pressure_profiles : List PressRow) (dls_overrides : List DlsRow)
    (survey_stations : List SurveyRow) (rows : List TempRowF)
    (pressure_rows : List PressRowF) (gen_overrides : List DlsRowG)
    (gen_stations : List SurveyRowG)
    (temp_group_id pore_group_id frac_group_id dls_group_id
      survey_header_id well_id wellbore_id scenario_id now : String)
    (gens gens2 : Nat → String) (group_id header_id : Option String)
    (scenario_ids well_ids wellbore_ids : List String)
    (k : ℚ) (sib out : List XMLElem) (gi pi fi di hi : Nat) :
    (tempSegmentRows profiles).Pairwise
      (fun a b => rowDepth b ≤ rowDepth a) ∧
    (tempSegmentRows profiles).filter (fun p => rowDepth p == k) =
      (profiles.filter (fun p => decide (0 < rowDepth p))).filter
        (fun p => rowDepth p == k) ∧
    (poreSegmentRows pressure_profiles).Pairwise
      (fun a b => b.depth.getD 0 ≤ a.depth.getD 0) ∧
    (poreSegmentRows pressure_profiles).filter
        (fun p => p.depth.getD 0 == k) =
      (pressure_profiles.filter
        (fun p => p.pressureType.getD "" == "Pore")).filter
        (fun p => p.depth.getD 0 == k) ∧
    (fracSegmentRows pressure_profiles).Pairwise
      (fun a b => b.depth.getD 0 ≤ a.depth.getD 0) ∧
    (fracSegmentRows pressure_profiles).filter
        (fun p => p.depth.getD 0 == k) =
      (pressure_profiles.filter
        (fun p => p.pressureType.getD "" == "Frac")).filter
        (fun p => p.depth.getD 0 == k) ∧
    (dlsSegmentRows dls_overrides).Pairwise
      (fun a b => b.topDepth.getD 0 ≤ a.topDepth.getD 0) ∧
    (dlsSegmentRows dls_overrides).filter
        (fun o => o.topDepth.getD 0 == k) =
      dls_overrides.filter (fun o => o.topDepth.getD 0 == k) ∧
    (surveySegmentRows survey_stations).Pairwise
      (fun a b => b.md.getD 0 ≤ a.md.getD 0) ∧
    (surveySegmentRows survey_stations).filter
        (fun s => s.md.getD 0 == k) =
      survey_stations.filter (fun s => s.md.getD 0 == k) ∧
    (findGroupIdx
        (setSurfaceTemp (removeTempGradients sib temp_group_id)
          temp_group_id profiles)
        "CD_TEMP_GRADIENT_GROUP" "TEMP_GRADIENT_GROUP_ID" temp_group_id =
          some gi →
      update_temperature_profiles sib well_id wellbore_id temp_group_id gens
          profiles = some out →
      out =
        (setSurfaceTemp (removeTempGradients sib temp_group_id)
          temp_group_id profiles).take (gi + 1) ++
        buildFrom (buildTempGradElem well_id wellbore_id temp_group_id gens)
          0 (tempSegmentRows profiles) ++
        (setSurfaceTemp (removeTempGradients sib temp_group_id)
          temp_group_id profiles).drop (gi + 1)) ∧
    (findGroupIdx (removeByTag (removeByTag sib "CD_PORE_PRESSURE")
          "CD_FRAC_GRADIENT")
        "CD_PORE_PRESSURE_GROUP" "PORE_PRESSURE_GROUP_ID" pore_group_id =
          some pi →
      findGroupIdx (spliceAfter
          (removeByTag (removeByTag sib "CD_PORE_PRESSURE")
            "CD_FRAC_GRADIENT")
          pi (buildFrom
            (buildPorePressureElem well_id wellbore_id pore_group_id gens) 0
            (poreSegmentRows pressure_profiles)))
        "CD_FRAC_GRADIENT_GROUP" "FRAC_GRADIENT_GROUP_ID" frac_group_id =
          some fi →
      update_pressure_profiles sib well_id wellbore_id pore_group_id
          frac_group_id gens gens2 pressure_profiles =
        spliceAfter (spliceAfter
          (removeByTag (removeByTag sib "CD_PORE_PRESSURE")
            "CD_FRAC_GRADIENT")
          pi (buildFrom
            (buildPorePressureElem well_id wellbore_id pore_group_id gens) 0
            (poreSegmentRows pressure_profiles)))
          fi (buildFrom
            (buildFracGradientElem well_id wellbore_id frac_group_id gens2)
            0 (fracSegmentRows pressure_profiles))) ∧
    (findGroupIdx (removeDlsOverrides sib dls_group_id)
        "TU_DLS_OVERRIDE_GROUP" "DLS_OVERRIDE_GROUP_ID" dls_group_id =
          some di →
      update_dls_overrides sib well_id wellbore_id scenario_id dls_group_id
          gens now dls_overrides =
        some (spliceAfter (removeDlsOverrides sib dls_group_id) di
          (buildFrom (buildDlsOverrideElem well_id wellbore_id scenario_id
            dls_group_id gens now) 0 (dlsSegmentRows dls_overrides)))) ∧
    (findGroupIdx (removeSurveyStations sib survey_header_id)
        "CD_DEFINITIVE_SURVEY_HEADER" "DEF_SURVEY_HEADER_ID"
        survey_header_id = some hi →
      update_survey_stations sib well_id wellbore_id survey_header_id gens
          survey_stations =
        some (spliceAfter
          (surveyHeaderNamed (removeSurveyStations sib survey_header_id)
            survey_header_id survey_stations) hi
          (buildFrom (buildSurveyStationElem well_id wellbore_id
            survey_header_id gens) 0
            (surveySegmentRows survey_stations)))) ∧
    (formationTempPoints temp_group_id gens well_ids wellbore_ids rows).map
        (fun e => getAttr e "TVD") =
      (rows.filter (fun p => decide (0 < p.depth))).map
        (fun p => some (ratStr p.depth)) ∧
    (formationPorePoints pore_group_id gens well_ids wellbore_ids
        pressure_rows).map (fun e => getAttr e "TVD") =
      (pressure_rows.filter (fun p => p.pressureType == "Pore")).map
        (fun p => some (ratStr p.depth)) ∧
    (formationFracPoints frac_group_id gens well_ids wellbore_ids
        pressure_rows).map (fun e => getAttr e "TVD") =
      (pressure_rows.filter (fun p => p.pressureType == "Frac")).map
        (fun p => some (ratStr p.depth)) ∧
    (update_dls_overrides_gen group_id scenario_ids well_ids wellbore_ids
        now gen_overrides).map (fun e => getAttr e "MD_TOP") =
      gen_overrides.map (fun o => o.topDepth.map ratStr) ∧
    (update_survey_header_stations header_id gen_stations).map
        (fun e => getAttr e "MD") =
      gen_stations.map (fun s => s.md.map ratStr) := by
  refine ⟨pySortDesc_sorted _ _, pySortDesc_stable _ _ _,
    pySortDesc_sorted _ _, pySortDesc_stable _ _ _,
    pySortDesc_sorted _ _, pySortDesc_stable _ _ _,
    pySortDesc_sorted _ _, pySortDesc_stable _ _ _,
    pySortDesc_sorted _ _, pySortDesc_stable _ _ _,
    ?_, ?_, ?_, ?_, ?_, ?_, ?_, ?_, ?_⟩
  · intro hfind hupd
    unfold update_temperature_profiles at hupd
    simp only [hfind, Option.some.injEq] at hupd
    rw [← hupd]
    have hlt := findIdx?_lt_length _ _ _ hfind
    have := spliceLoop_eq
      (buildTempGradElem well_id wellbore_id temp_group_id gens) (gi + 1)
      (tempSegmentRows profiles) 0
      (setSurfaceTemp (removeTempGradients sib temp_group_id)
        temp_group_id profiles)
      (by omega)
    simpa using this
  · intro hp hf
    have hpi := findIdx?_lt_length _ _ _ hp
    simp only [update_pressure_profiles]
    by_cases hPE : (poreSegmentRows pressure_profiles).isEmpty = true
    · have hE : poreSegmentRows pressure_profiles = [] := by
        simpa using hPE
      rw [if_pos hPE]
      rw [hE] at hf ⊢
      simp only [buildFrom] at hf ⊢
      rw [spliceAfter_nil] at hf ⊢
      by_cases hFE : (fracSegmentRows pressure_profiles).isEmpty = true
      · have hE2 : fracSegmentRows pressure_profiles = [] := by
          simpa using hFE
        rw [if_pos hFE, hE2]
        simp only [buildFrom]
        rw [spliceAfter_nil]
      · rw [if_neg hFE]
        simp only [hf]
        rw [add_frac_gradient_elements]
        exact spliceLoop_splice _ _ _ _ (findIdx?_lt_length _ _ _ hf)
    · rw [if_neg hPE]
      simp only [hp]
      rw [add_pore_pressure_elements, spliceLoop_splice _ _ _ _ hpi]
      by_cases hFE : (fracSegmentRows pressure_profiles).isEmpty = true
      · have hE2 : fracSegmentRows pressure_profiles = [] := by
          simpa using hFE
        rw [if_pos hFE, hE2]
        simp only [buildFrom]
        rw [spliceAfter_nil]
      · rw [if_neg hFE]
        simp only [hf]
        rw [add_frac_gradient_elements]
        exact spliceLoop_splice _ _ _ _ (findIdx?_lt_length _ _ _ hf)
  · intro hd
    have hdi := findIdx?_lt_length _ _ _ hd
    simp only [update_dls_overrides, hd]
    rw [spliceLoop_splice _ _ _ _ hdi]
  · intro hs
    have hhi := findIdx?_lt_length _ _ _ hs
    simp only [update_survey_stations, hs]
    rw [spliceLoop_splice _ _ _ _
      (by rw [length_surveyHeaderNamed]; exact hhi)]
  · rw [formationTempPoints]
    exact buildFrom_map
      (buildFormationTempElem temp_group_id gens well_ids wellbore_ids)
      (fun e => getAttr e "TVD") (fun p => some (ratStr p.depth))
      (fun i p => rfl) 0 (rows.filter (fun p => decide (0 < p.depth)))
  · rw [formationPorePoints]
    exact buildFrom_map
      (buildFormationPoreElem pore_group_id gens well_ids wellbore_ids)
      (fun e => getAttr e "TVD") (fun p => some (ratStr p.depth))
      (fun i p => rfl) 0
      (pressure_rows.filter (fun p => p.pressureType == "Pore"))
  · rw [formationFracPoints]
    exact buildFrom_map
      (buildFormationFracElem frac_group_id gens well_ids wellbore_ids)
      (fun e => getAttr e "TVD") (fun p => some (ratStr p.depth))
      (fun i p => rfl) 0
      (pressure_rows.filter (fun p => p.pressureType == "Frac"))
  · simp only [update_dls_overrides_gen, List.map_map, Function.comp_def,
      getAttr_gen_dls_mdtop]
  · simp only [update_survey_header_stations, List.map_map,
      Function.comp_def, getAttr_gen_survey_md]

/-- Counterexample for C1 as stated: the full-generation temperature handler
(`update_formation_inputs`) does not sort — rows at depth 100 then 200 are
spliced in payload order, ascending, not deepest-first. -/
theorem deepest_first_counterexample :
    (formationTempPoints "G" (fun i => toString i) [] []
        [⟨100, 50⟩, ⟨200, 60⟩]).map (fun e => getAttr e "TVD") =
      [some (ratStr 100), some (ratStr 200)] ∧
    ¬ ((200 : ℚ) ≤ 100) := by
  refine ⟨by decide, by norm_num⟩

/-- Witness for the amended C1 theorem: the template temperature handler on a
one-group document with a single depth-100 row splices the built element
right after the group. -/
theorem deepest_first_ordering_witness :
    ([⟨"CD_TEMP_GRADIENT_GROUP", [("TEMP_GRADIENT_GROUP_ID", "G")]⟩,
      ⟨"CD_TEMP_GRADIENT",
        [("WELL_ID", "W"), ("WELLBORE_ID", "B"),
         ("TEMP_GRADIENT_GROUP_ID", "G"), ("TEMP_GRADIENT_ID", "id0"),
         ("TEMPERATURE", "50"), ("TVD", "100")]⟩] : List XMLElem) =
      (setSurfaceTemp
        (removeTempGradients
          [⟨"CD_TEMP_GRADIENT_GROUP", [("TEMP_GRADIENT_GROUP_ID", "G")]⟩] "G")
        "G" [⟨some 100, some 50⟩]).take (0 + 1) ++
      buildFrom
        (buildTempGradElem "W" "B" "G" (fun i => "id" ++ toString i)) 0
        (tempSegmentRows [⟨some 100, some 50⟩]) ++
      (setSurfaceTemp
        (removeTempGradients
          [⟨"CD_TEMP_GRADIENT_GROUP", [("TEMP_GRADIENT_GROUP_ID", "G")]⟩] "G")
        "G" [⟨some 100, some 50⟩]).drop (0 + 1) := by
  exact (deepest_first_ordering [⟨some 100, some 50⟩] [] [] [] [] [] [] []
    "G" "P" "F" "D" "H" "W" "B" "S" "N"
    (fun i => "id" ++ toString i) (fun i => "id" ++ toString i)
    none none [] [] [] 0
    [⟨"CD_TEMP_GRADIENT_GROUP", [("TEMP_GRADIENT_GROUP_ID", "G")]⟩]
    [⟨"CD_TEMP_GRADIENT_GROUP", [("TEMP_GRADIENT_GROUP_ID", "G")]⟩,
     ⟨"CD_TEMP_GRADIENT",
       [("WELL_ID", "W"), ("WELLBORE_ID", "B"),
        ("TEMP_GRADIENT_GROUP_ID", "G"), ("TEMP_GRADIENT_ID", "id0"),
        ("TEMPERATURE", "50"), ("TVD", "100")]⟩]
    0 0 0 0 0).2.2.2.2.2.2.2.2.2.2.1 (by decide) (by decide)

/-! #### C8: Case-linker idempotence -/
theorem tag_foldl {α : Type} (f : XMLElem → α → XMLElem)
    (h : ∀ acc a, (f acc a).tag = acc.tag) :
    ∀ (l : List α) (e : XMLElem), (l.foldl f e).tag = e.tag := by
  intro l
  induction l with
  | nil => intro e; rfl
  | cons x xs ih =>
    intro e
    rw [List.foldl_cons, ih, h]

theorem tag_set_attributes_ordered (e : XMLElem)
    (attributes : List (String × String)) :
    (set_attributes_ordered e attributes).tag = e.tag := by
  unfold set_attributes_ordered
  rw [tag_foldl _ ?h2, tag_foldl _ ?h1]
  case h1 =>
    intro acc k
    cases attributes.lookup k with
    | none => rfl
    | some v => exact tag_setAttr acc k v
  case h2 =>
    intro acc p
    by_cases hc : p.1 ∈ ATTRIBUTE_ORDER
    · simp [hc]
    · simp [hc, tag_setAttr]

theorem tag_buildCaseElem (r : IDRegistry)
    (now scenario_id well_id wellbore_id : String) (i : Nat)
    (case_id assembly_id : String) :
    (buildCaseElem r now scenario_id well_id wellbore_id i case_id
      assembly_id).tag = "CD_CASE" := by
  unfold buildCaseElem add_creation_info
  rw [tag_set_attributes_ordered, tag_set_attributes_ordered]

theorem mem_buildCaseElemsFrom_tag (r : IDRegistry)
    (now scenario_id well_id wellbore_id : String) :
    ∀ (i : Nat) (cids : List String) (e : XMLElem),
      e ∈ buildCaseElemsFrom r now scenario_id well_id wellbore_id i cids →
      e.tag = "CD_CASE" := by
  intro i cids
  induction cids generalizing i with
  | nil => intro e h; cases h
  | cons cid rest ih =>
    intro e h
    rw [buildCaseElemsFrom] at h
    cases hf : findAssemblyForCase r.relationship_map cid with
    | none =>
      rw [hf] at h
      exact ih (i + 1) e h
    | some aid =>
      rw [hf] at h
      rcases List.mem_cons.mp h with h1 | h2
      · rw [h1]; exact tag_buildCaseElem r now scenario_id well_id wellbore_id i cid aid
      · exact ih (i + 1) e h2

theorem buildCaseElemsFrom_eq_nil (r : IDRegistry)
    (now scenario_id well_id wellbore_id : String) :
    ∀ (i : Nat) (cids : List String),
      buildCaseElemsFrom r now scenario_id well_id wellbore_id i cids = [] ↔
      ∀ cid ∈ cids, findAssemblyForCase r.relationship_map cid = none := by
  intro i cids
  induction cids generalizing i with
  | nil => simp [buildCaseElemsFrom]
  | cons cid rest ih =>
    rw [buildCaseElemsFrom]
    cases hf : findAssemblyForCase r.relationship_map cid with
    | none => simp [hf, ih (i + 1)]
    | some aid => simp [hf]

/-- C8: `add_case_elements` is a no-op whenever a CD_CASE element already
exists under the export element, and is idempotent within one generation pass
(even across differing audit timestamps). -/
theorem add_case_elements_idempotent (r : IDRegistry)
    (children : List XMLElem) (now nowTwo : String) :
    ((children.filter (fun e => e.tag == "CD_CASE")).isEmpty = false →
      add_case_elements r children now = children) ∧
    add_case_elements r (add_case_elements r children now) nowTwo =
      add_case_elements r children now := by
  by_cases hg : ((dictGetIds r.id_map "SCENARIO").isEmpty ||
      (dictGetIds r.id_map "ASSEMBLY").isEmpty ||
      (dictGetIds r.id_map "CASE").isEmpty) = true
  · constructor
    · intro _
      simp [add_case_elements, hg]
    · simp [add_case_elements, hg]
  · by_cases hc : (children.filter (fun e => e.tag == "CD_CASE")).isEmpty = false
    · have h1 : add_case_elements r children now = children := by
        simp [add_case_elements, hg, hc]
      have h2 : add_case_elements r children nowTwo = children := by
        simp [add_case_elements, hg, hc]
      exact ⟨fun _ => h1, by rw [h1, h2]⟩
    · have hce : (children.filter (fun e => e.tag == "CD_CASE")).isEmpty = true := by
        simpa using hc
      refine ⟨fun hfalse => absurd hfalse hc, ?_⟩
      have h1 : add_case_elements r children now =
          children ++ buildCaseElemsFrom r now
            ((dictGetIds r.id_map "SCENARIO").head?.getD "")
            ((dictGetIds r.id_map "WELL").head?.getD "")
            ((dictGetIds r.id_map "WELLBORE").head?.getD "") 0
            (dictGetIds r.id_map "CASE") := by
        simp [add_case_elements, hg, hce]
      cases hnil : buildCaseElemsFrom r now
          ((dictGetIds r.id_map "SCENARIO").head?.getD "")
          ((dictGetIds r.id_map "WELL").head?.getD "")
          ((dictGetIds r.id_map "WELLBORE").head?.getD "") 0
          (dictGetIds r.id_map "CASE") with
      | nil =>
        have hall := (buildCaseElemsFrom_eq_nil r now _ _ _ 0 _).mp hnil
        have hnil2 : buildCaseElemsFrom r nowTwo
            ((dictGetIds r.id_map "SCENARIO").head?.getD "")
            ((dictGetIds r.id_map "WELL").head?.getD "")
            ((dictGetIds r.id_map "WELLBORE").head?.getD "") 0
            (dictGetIds r.id_map "CASE") = [] :=
          (buildCaseElemsFrom_eq_nil r nowTwo _ _ _ 0 _).mpr hall
        rw [h1, hnil, List.append_nil]
        simp [add_case_elements, hg, hce, hnil2]
      | cons c cs =>
        have htag : c.tag = "CD_CASE" := by
          refine mem_buildCaseElemsFrom_tag r now
            ((dictGetIds r.id_map "SCENARIO").head?.getD "")
            ((dictGetIds r.id_map "WELL").head?.getD "")
            ((dictGetIds r.id_map "WELLBORE").head?.getD "") 0
            (dictGetIds r.id_map "CASE") c ?_
          rw [hnil]
          exact List.mem_cons_self _ _
        rw [h1, hnil]
        have hmem : c ∈ (children ++ c :: cs).filter
            (fun e => e.tag == "CD_CASE") := by
          refine List.mem_filter.mpr ⟨?_, by simp [htag]⟩
          exact List.mem_append_right _ (List.mem_cons_self _ _)
        have hfil : ((children ++ c :: cs).filter
            (fun e => e.tag == "CD_CASE")).isEmpty = false := by
          cases hE : ((children ++ c :: cs).filter
              (fun e => e.tag == "CD_CASE")).isEmpty with
          | false => rfl
          | true =>
            rw [List.isEmpty_iff] at hE
            rw [hE] at hmem
            cases hmem
        simp [add_case_elements, hg, hfil]
        intro _ hcc _
        exact absurd htag hcc

/-- Witness for C8: with a CD_CASE element already present, the call leaves
the document unchanged. -/
theorem add_case_elements_idempotent_witness :
    add_case_elements ⟨[], [], []⟩ [⟨"CD_CASE", []⟩] "t" = [⟨"CD_CASE", []⟩] :=
  (add_case_elements_idempotent ⟨[], [], []⟩ [⟨"CD_CASE", []⟩] "t" "u").1
    (by decide)

/-- Witness for the amended material-resolution theorem: two named materials,
a component matching the second by grade. -/
theorem resolve_material_precedence_witness :
    resolveForComponent (fun _ => "G0")
      [{ materialId := some "M1", materialName := some "steel", grade := none },
       { materialId := some "M2", materialName := some "iron", grade := some "L80" }]
      { materialId := none, materialName := none, grade := some "L80" } = "M2" := by
  have h := resolve_material_precedence (fun _ => "G0")
    [{ materialId := some "M1", materialName := some "steel", grade := none },
     { materialId := some "M2", materialName := some "iron", grade := some "L80" }]
    { materialId := none, materialName := none, grade := some "L80" }
    (by decide) (by decide)
  rw [h]
  rfl

end LMXML
